import Mathlib

/-!
Verification of the pylucam wrapper (src/pylucam/lucam.py) against its
specification.  The wrapper is boundary glue around a closed native camera
library; we embed the wrapper's logic shallowly: the native library becomes a
deterministic oracle record (`LucamLib`), the stateful camera session becomes
explicit state passing with a trace of native calls (`CamM`), and the Python
string manipulations become executable functions on character lists.
-/

namespace PyLucam

/-! ## String primitives modelling the Python string operations

Python strings are modelled as Lean strings; character-level operations work on
the underlying character list.  Python `str.upper` is modelled by the ASCII
`Char.toUpper` (all property identifiers in the source are ASCII), and the
regex class `[A-Z]` by the ASCII `Char.isUpper`.
-/

/-- Model of Python `str.upper` on the character list. -/
def pyUpperL (l : List Char) : List Char := l.map Char.toUpper

/-- Model of Python `str.upper`. -/
def pyUpper (s : String) : String := ⟨pyUpperL s.data⟩

/-- Model of the Python membership test `c in s` for a single character. -/
def pyContainsChar (s : String) (c : Char) : Bool := s.data.contains c

/-- Model of `re.sub(r"([A-Z])", r" \1", s)`: insert a space before every
capital letter. -/
def reSubCapital : List Char → List Char
  | [] => []
  | c :: cs => if c.isUpper then ' ' :: c :: reSubCapital cs else c :: reSubCapital cs

/-- Auxiliary for `pyWords`: `cur` is the reversed current word. -/
def pyWordsAux (cur : List Char) : List Char → List (List Char)
  | [] => if cur.isEmpty then [] else [cur.reverse]
  | c :: cs =>
    if c.isWhitespace then
      if cur.isEmpty then pyWordsAux [] cs else cur.reverse :: pyWordsAux [] cs
    else pyWordsAux (c :: cur) cs

/-- Model of Python `str.split()` with no argument: split on whitespace runs,
dropping empty words. -/
def pyWords (l : List Char) : List (List Char) := pyWordsAux [] l

/-- Model of the source expression
`"_".join(re.sub(r"([A-Z])", r" \1", property).split())`. -/
def splitCamel (l : List Char) : List Char :=
  List.intercalate ['_'] (pyWords (reSubCapital l))

/-- The native symbol name resolved by `LucamCamera._property_value` for a
string argument: if the string has no underscore it is camel-split first, and
the result is upper-cased and prefixed with `LUCAM_PROP_` (the name handed to
`getattr` on the bound library). -/
def propertySymbolName (property : String) : String :=
  let property :=
    if pyContainsChar property '_' then property else ⟨splitCamel property.data⟩
  "LUCAM_PROP_" ++ pyUpper property

/-! ### Specification-side normalization (for claim C1)

The spec describes the normalization as: split the identifier at each capital
letter, rejoin the words with underscores, upper-case the result, and prepend
the prefix.  The following definitions follow the spec's words; splitting at
each capital letter means every capital letter starts a new word, and empty
fragments are not words. -/

/-- Auxiliary for `splitAtCapitals`: `cur` is the reversed current word. -/
def splitAtCapitalsAux (cur : List Char) : List Char → List (List Char)
  | [] => if cur.isEmpty then [] else [cur.reverse]
  | c :: cs =>
    if c.isUpper then
      if cur.isEmpty then splitAtCapitalsAux [c] cs
      else cur.reverse :: splitAtCapitalsAux [c] cs
    else splitAtCapitalsAux (c :: cur) cs

/-- Split a string at each capital letter: each capital letter begins a new
word.  Written from the specification text, to be compared with the code-side
`splitCamel`. -/
def splitAtCapitals (l : List Char) : List (List Char) := splitAtCapitalsAux [] l

/-- Specification-side symbol name: split at capital letters, rejoin with
underscores, upper-case, prepend the namespace prefix. -/
def specSymbolName (property : String) : String :=
  "LUCAM_PROP_" ++ pyUpper ⟨List.intercalate ['_'] (splitAtCapitals property.data)⟩

theorem pyWordsAux_reSubCapital (l : List Char) :
    ∀ cur : List Char, (∀ c ∈ l, ¬ c.isWhitespace) →
      pyWordsAux cur (reSubCapital l) = splitAtCapitalsAux cur l := by
  induction l with
  | nil => intro cur _; rfl
  | cons c cs ih =>
    intro cur h
    have hc : ¬ c.isWhitespace := h c (List.mem_cons_self c cs)
    have hcs : ∀ d ∈ cs, ¬ d.isWhitespace := fun d hd => h d (List.mem_cons_of_mem c hd)
    by_cases hu : c.isUpper
    · simp only [reSubCapital, hu, if_true, if_pos]
      show pyWordsAux cur (' ' :: c :: reSubCapital cs) = splitAtCapitalsAux cur (c :: cs)
      rw [pyWordsAux, splitAtCapitalsAux]
      simp only [Char.isWhitespace, hu, if_pos]
      norm_num
      by_cases hcur : cur.isEmpty <;>
        simp [hcur, pyWordsAux, hc, ih _ hcs, splitAtCapitalsAux, hu]
    · simp only [reSubCapital, hu, if_false, if_neg]
      show pyWordsAux cur (c :: reSubCapital cs) = splitAtCapitalsAux cur (c :: cs)
      rw [pyWordsAux, splitAtCapitalsAux]
      simp [hc, hu, ih _ hcs]

theorem splitCamel_eq_splitAtCapitals (l : List Char) (h : ∀ c ∈ l, ¬ c.isWhitespace) :
    splitCamel l = List.intercalate ['_'] (splitAtCapitals l) := by
  unfold splitCamel pyWords splitAtCapitals
  rw [pyWordsAux_reSubCapital l [] h]

/-! ## The error-code table

The static CODES dictionary of the LucamError exception class, transcribed
entry for entry.  Each value is the registered name-and-description text of
the Python triple-quoted string, newlines and continuation indentation
included.  The Python dict is modelled as an association list with the same
key order. -/

def LucamError.CODES : List (Int × String) := [
  (0, "NoError\n            Initialization value in the API."),
  (1, "NoSuchIndex\n            The index passed to LucamCameraOpen was 0. It must be >= 1."),
  (2, "SnapshotNotSupported\n            The camera does not support snapshots or fast frames."),
  (3, "InvalidPixelFormat\n            The pixel format parameter passed to the function is invalid."),
  (4, "SubsamplingZero\n            A subsampling of zero was passed to a function."),
  (5, "Busy\n            The function is unavailable because the camera is busy with\n            streaming or capturing fast frames."),
  (6, "FailedToSetSubsampling\n            The API failed to set the requested subsampling. This can be due\n            to the camera being disconnected. It can also be due to a filter\n            not being there."),
  (7, "FailedToSetStartPosition\n            The API failed to set the requested subsampling. This can be due\n            to the camera being disconnected."),
  (8, "PixelFormatNotSupported\n            The camera does not support the pixel format passed to the\n            function."),
  (9, "InvalidFrameFormat\n            The format passed to the function does not pass the camera\n            requirements. Verify that (xOffset + width) is not greater than\n            the camera's maximum width. Verify that (width / subSamplingX)\n            is a multiple of some 'nice' value. Do the same for the y."),
  (10, "PreparationFailed\n            The API failed to prepare the camera for streaming or snapshot.\n            This can due to the camera being disconnected. If START_STREAMING\n            succeeds and START_DISPLAY fails with this error, this can be due\n            to a filter not being there or registered."),
  (11, "CannotRun\n            The API failed to get the camera running. This can be due to\n            a bandwidth problem."),
  (12, "NoTriggerControl\n            Contact Lumenera."),
  (13, "NoPin\n            Contact Lumenera."),
  (14, "NotRunning\n            The function failed because it requires the camera to be running,\n            and it is not."),
  (15, "TriggerFailed\n            Contact Lumenera."),
  (16, "CannotSetupFrameFormat\n            The camera does not support that its frame format get setup.\n            This will happen if your camera is plugged to a USB 1 port and\n            it does not support it. LucamCameraOpen will still succeeds,\n            but if a call to LucamGetLastError will return this value."),
  (17, "DirectShowInitError\n            Direct Show initialization error. This may happen if you run the\n            API before having installed a DS compatible camera ever before.\n            The Lumenera camera is DS compatible."),
  (18, "CameraNotFound\n            The function LucamCameraOpen did not find the camera # index."),
  (19, "Timeout\n            The function timed out."),
  (20, "PropertyUnknown\n            The API does not know the property passed to LucamGetProperty,\n            LucamSetProperty or LucamGetPropertyRange. You may be using an\n            old DLL."),
  (21, "PropertyUnsupported\n            The camera does not support that property."),
  (22, "PropertyAccessFailed\n            The API failed to access the property. Most likely, the reason\n            is that the camera does not support that property."),
  (23, "LucustomNotFound\n            The lucustom.ax filter was not found."),
  (24, "PreviewNotRunning\n            The function failed because preview is not running."),
  (25, "LutfNotLoaded\n            The function failed because lutf.ax is not loaded."),
  (26, "DirectShowError\n            An error related to the operation of DirectShow occured."),
  (27, "NoMoreCallbacks\n            The function LucamAddStreamingCallback failed because the API\n            cannot support any more callbacks."),
  (28, "UndeterminedFrameFormat\n            The API does not know what is the frame format of the camera."),
  (29, "InvalidParameter\n            An parameter has an obviously wrong value."),
  (30, "NotEnoughResources\n            Resource allocation failed."),
  (31, "NoSuchConversion\n            One of the members of the LUCAM_CONVERSION structure passed is\n            either unknown or inappropriate."),
  (32, "ParameterNotWithinBoundaries\n            A parameter representing a quantity is outside the allowed\n            boundaries."),
  (33, "BadFileIo\n            An error occured creating a file or writing to it. Verify that\n            the path exists."),
  (34, "GdiplusNotFound\n            gdiplus.dll is needed and was not found."),
  (35, "GdiplusError\n            gdiplus.dll reported an error. This may happen if there is a file\n            IO error."),
  (36, "UnknownFormatType\n            Contact Lumenera."),
  (37, "FailedCreateDisplay\n            The API failed to create the display window. The reason could be\n            unsufficient resources."),
  (38, "DpLibNotFound\n            deltapolation.dll is needed and was not found."),
  (39, "DpCmdNotSupported\n            The deltapolation command is not supported by the delta\n            polation library."),
  (40, "DpCmdUnknown\n            The deltapolation command is unknown or invalid."),
  (41, "NotWhilePaused\n            The function cannot be performed when the camera is in\n            paused state."),
  (42, "CaptureFailed\n            Contact Lumenera."),
  (43, "DpError\n            Contact Lumenera."),
  (44, "NoSuchFrameRate\n            Contact Lumenera."),
  (45, "InvalidTarget\n            One of the target parameters is wrong. This error code is used\n            when startX + width > (frameFormat.width / frameFormat.subSampleX)\n            or startY + height > (frameFormat.height / frameFormat.subSampleY)\n            if any of those parameter is odd (not a multiple of 2) or\n            or if width or height is 0."),
  (46, "FrameTooDark\n            The frame is too dark to perform white balance."),
  (47, "KsPropertySetNotFound\n            A DirectShow interface necessary to carry out the operation\n            was not found."),
  (48, "Cancelled\n            The user cancelled the operation."),
  (49, "KsControlNotSupported\n            The DirectShow IKsControl interface is not supported (did you\n            unplug the camera?)."),
  (50, "EventNotSupported\n            Some module attempted to register an unsupported event."),
  (51, "NoPreview\n            The function failed because preview was not setup."),
  (52, "SetPositionFailed\n            A function setting window position failed (invalid parameters)."),
  (53, "NoFrameRateList\n            The frame rate list is not available."),
  (54, "FrameRateInconsistent\n            There was an error building the frame rate list."),
  (55, "CameraNotConfiguredForCmd\n            The camera does not support that particular command."),
  (56, "GraphNotReady\n            The graph is not ready."),
  (57, "CallbackSetupError\n            Contact Lumenera."),
  (58, "InvalidTriggerMode\n            You cannot cause a soft trigger when hw trigger is enabled."),
  (59, "NotFound\n            The API was asked to return soomething that is not there."),
  (60, "EepromTooSmall\n            The onboard EEPROM is too small."),
  (61, "EepromWriteFailed\n            The API failed to write to the onboard eeprom."),
  (62, "UnknownFileType\n            The API failed because it failed to recognize the file type of\n            a file name passed to it."),
  (63, "EventIdNotSupported\n            LucamRegisterEventNotification failed because the event\n            is not supported."),
  (64, "EepromCorrupted\n            The API found that the EEPROM was corrupted."),
  (65, "SectionTooBig\n            The VPD section to write to the eeprom is too big."),
  (66, "FrameTooBright\n            The frame is too bright to perform white balance."),
  (67, "NoCorrectionMatrix\n            The camera is configured to have no correction matrix\n            (PROPERTY_CORRECTION_MATRIX is LUCAM_CM_NONE)."),
  (68, "UnknownCameraModel\n            The API failed because it needs to know the camera model and it\n            is not available."),
  (69, "ApiTooOld\n            The API failed because it needs to be upgraded to access a\n            feature of the camera."),
  (70, "SaturationZero\n            The API failed because the saturation is currently 0."),
  (71, "AlreadyInitialised\n            The API failed because the object was already initialised."),
  (72, "SameInputAndOutputFile\n            The API failed because the object was already initialised."),
  (73, "FileConversionFailed\n            The API failed because the file conversion was not completed."),
  (74, "FileAlreadyConverted\n            The API failed because the file is already converted in the\n            desired format."),
  (75, "PropertyPageNotSupported\n            The API failed to display the property page."),
  (76, "PropertyPageCreationFailed\n            The API failed to create the property page."),
  (77, "DirectShowFilterNotInstalled\n            The API did not find the required direct show filter."),
  (78, "IndividualLutNotAvailable\n            The camera does not support that different LUTs are applied\n            to each color."),
  (79, "UnexpectedError\n            Contact Lumenera."),
  (80, "StreamingStopped\n            LucamTakeFastFrame or LucamTakeVideo failed because another thread\n            interrupted the streaming by a call to LucamDisableFastFrames or\n            LucamStreamVideoControl."),
  (81, "MustBeInSwTriggerMode\n            LucamForceTakeFastFrame was called while the camera is in hardware\n            trigger still mode and the camera does not support taking a sw\n            trigger snapshot while in that state."),
  (82, "TargetFlaky\n            The target is too flaky to perform auto focus."),
  (83, "AutoLensUninitialized\n            The auto lens needs to be initialized before the function\n            is used."),
  (84, "LensNotInstalled\n            The function failed because the lens were not installed correctly.\n            Verify that changing the focus has any effect."),
  (85, "UnknownError\n            The function failed because of an unknoen error.\n            Contact Lumenera."),
  (86, "FocusNoFeedbackError\n            There is no feedback available for focus."),
  (87, "LutfTooOld\n            LuTF.ax is too old for this feature."),
  (88, "UnknownAviFormat\n            Unknown or invalid AVI format for input file."),
  (89, "UnknownAviType\n            Unknown AVI type. Verify the AVI type parameter."),
  (90, "InvalidAviConversion\n            The AVI conversion is invalid."),
  (91, "SeekFailed\n            The seeking operation failed."),
  (92, "AviRunning\n            The function cannot be performed while an AVI is being\n            captured."),
  (93, "CameraAlreadyOpened\n            An attempt was made to open a camera for streaming-related\n            reasons while it is already opened for such."),
  (94, "NoSubsampledHighRes\n            The API cannot take a high resolution image in subsampled mode\n            or binning mode."),
  (95, "OnlyOnMonochrome\n            The API function is only available on monochrome cameras."),
  (96, "No8bppTo48bpp\n            Building a 48 bpp image from an 8 bpp image is invalid."),
  (97, "Lut8Obsolete\n            Use 12 bits LUT instead."),
  (98, "FunctionNotSupported\n            That functionnality is not supported."),
  (99, "RetryLimitReached\n            Property access failed due to a retry limit.")]

/-- Model of rendering a LucamError, the method returning
`self.CODES[self.value]`: the dictionary lookup succeeds with the registered
text, or fails with a KeyError, modelled as none. -/
def LucamError.render (value : Int) : Option String := LucamError.CODES.lookup value

theorem lookup_mem_int {l : List (Int × String)} {a : Int} {b : String}
    (h : l.lookup a = some b) : (a, b) ∈ l := by
  induction l with
  | nil => simp [List.lookup] at h
  | cons p ps ih =>
    obtain ⟨k, v⟩ := p
    rw [List.lookup] at h
    by_cases hk : a = k
    · subst hk
      rw [beq_self_eq_true] at h
      cases h
      exact List.mem_cons_self _ _
    · have : (a == k) = false := beq_false_of_ne hk
      rw [this] at h
      exact List.mem_cons_of_mem _ (ih h)

theorem lookup_eq_none_int {l : List (Int × String)} {a : Int}
    (h : ∀ p ∈ l, p.1 ≠ a) : l.lookup a = none := by
  induction l with
  | nil => rfl
  | cons p ps ih =>
    obtain ⟨k, v⟩ := p
    rw [List.lookup]
    have hk : ¬ (a = k) := fun hak => h (k, v) (List.mem_cons_self _ _) hak.symm
    rw [beq_false_of_ne hk]
    exact ih fun q hq => h q (List.mem_cons_of_mem _ hq)

/-! ## Struct marshallers

Native FLOAT values only pass through the wrapper, with no arithmetic
performed on them, so they are modelled as exact rationals. -/

/-- Native FLOAT values as they cross the boundary; the wrapper performs no
floating-point arithmetic, so they are modelled exactly. -/
abbrev FLOAT := Rat

/-- The Format dataclass: frame geometry and sensor-readout descriptor. -/
structure Format where
  xOffset : Int
  yOffset : Int
  width : Int
  height : Int
  pixelFormat : Int
  subSampleX : Int
  binningX : Int
  flagsX : Int
  subSampleY : Int
  binningY : Int
  flagsY : Int
  deriving Repr, DecidableEq, Inhabited

/-- Modelled from the spec: the native LUCAM_FRAME_FORMAT fixed-layout
structure.  The hand-trimmed lucamapi.h declaring it is not among the
sources; per the spec the marshalling is a field-by-field copy with fields
identified by name, so the native layout carries the same eleven named
fields. -/
structure LUCAM_FRAME_FORMAT where
  xOffset : Int
  yOffset : Int
  width : Int
  height : Int
  pixelFormat : Int
  subSampleX : Int
  binningX : Int
  flagsX : Int
  subSampleY : Int
  binningY : Int
  flagsY : Int
  deriving Repr, DecidableEq, Inhabited

/-- Format.from_lucam: copy every annotated field out of the native struct. -/
def Format.from_lucam (f : LUCAM_FRAME_FORMAT) : Format :=
  { xOffset := f.xOffset, yOffset := f.yOffset, width := f.width, height := f.height,
    pixelFormat := f.pixelFormat, subSampleX := f.subSampleX, binningX := f.binningX,
    flagsX := f.flagsX, subSampleY := f.subSampleY, binningY := f.binningY,
    flagsY := f.flagsY }

/-- Format.as_lucam: copy every annotated field into a fresh native struct. -/
def Format.as_lucam (f : Format) : LUCAM_FRAME_FORMAT :=
  { xOffset := f.xOffset, yOffset := f.yOffset, width := f.width, height := f.height,
    pixelFormat := f.pixelFormat, subSampleX := f.subSampleX, binningX := f.binningX,
    flagsX := f.flagsX, subSampleY := f.subSampleY, binningY := f.binningY,
    flagsY := f.flagsY }

/-- The Snapshot dataclass: capture parameters with an embedded Format. -/
structure Snapshot where
  exposure : FLOAT
  gain : FLOAT
  gainRed : FLOAT
  gainBlue : FLOAT
  gainGrn1 : FLOAT
  gainGrn2 : FLOAT
  timeout : FLOAT
  format : Format
  deriving Repr, DecidableEq, Inhabited

/-- Modelled from the spec: the native LUCAM_SNAPSHOT fixed-layout structure
(the header declaring it is not among the sources); the marshalling copies
the same named fields, recursively marshalling the embedded format. -/
structure LUCAM_SNAPSHOT where
  exposure : FLOAT
  gain : FLOAT
  gainRed : FLOAT
  gainBlue : FLOAT
  gainGrn1 : FLOAT
  gainGrn2 : FLOAT
  timeout : FLOAT
  format : LUCAM_FRAME_FORMAT
  deriving Repr, DecidableEq, Inhabited

/-- Snapshot.as_lucam: copy every annotated field into a fresh native struct,
recursively marshalling the embedded format. -/
def Snapshot.as_lucam (s : Snapshot) : LUCAM_SNAPSHOT :=
  { exposure := s.exposure, gain := s.gain, gainRed := s.gainRed,
    gainBlue := s.gainBlue, gainGrn1 := s.gainGrn1, gainGrn2 := s.gainGrn2,
    timeout := s.timeout, format := s.format.as_lucam }

/-- The field iteration order of the Snapshot dataclass (its annotation
dictionary), as walked by get_default_snapshot. -/
def Snapshot.field_names : List String :=
  ["exposure", "gain", "gainRed", "gainBlue", "gainGrn1", "gainGrn2", "timeout", "format"]

/-- Model of the Python membership test of the three-letter abbreviation Grn
inside a field name, scanning left to right. -/
def containsGrn : List Char → Bool
  | 'G' :: 'r' :: 'n' :: _ => true
  | _ :: cs => containsGrn cs
  | [] => false

/-- Model of replacing every occurrence of the abbreviation Grn by Green,
scanning left to right over non-overlapping occurrences, as Python
str.replace does. -/
def replaceGrnGreen : List Char → List Char
  | 'G' :: 'r' :: 'n' :: cs => 'G' :: 'r' :: 'e' :: 'e' :: 'n' :: replaceGrnGreen cs
  | c :: cs => c :: replaceGrnGreen cs
  | [] => []

/-! ## The native library oracle and the camera session state

The bound native library is opaque; it is modelled as a deterministic oracle
record: each native entry point becomes a function from its arguments to its
result, with Option or Bool encoding the success/failure status the wrapper
checks.  The getattr symbol table of the binding is part of the oracle. -/

/-- Deterministic oracle for the bound native library. -/
structure LucamLib where
  /-- getattr on the binding, used by the dynamic property-name resolution;
  none models an AttributeError. -/
  getSymbol : String → Option Int
  /-- The five property constants read at import time to build the
  LucamProperty enumeration. -/
  LUCAM_PROP_GAIN : Int
  LUCAM_PROP_GAIN_RED : Int
  LUCAM_PROP_GAIN_BLUE : Int
  LUCAM_PROP_GAIN_GREEN1 : Int
  LUCAM_PROP_GAIN_GREEN2 : Int
  START_STREAMING : Int
  STOP_STREAMING : Int
  /-- LucamCameraOpen: index to handle (a null handle is how failure shows). -/
  LucamCameraOpen : Int → Int
  LucamGetLastError : Int
  LucamGetLastErrorForCamera : Int → Int
  /-- LucamGetProperty: handle and property id to the value written through
  the out-parameter; none models a FALSE return. -/
  LucamGetProperty : Int → Int → Option FLOAT
  LucamSetProperty : Int → Int → FLOAT → Bool
  /-- LucamGetFormat: handle to the native format and framerate written
  through the out-parameters; none models a FALSE return. -/
  LucamGetFormat : Int → Option (LUCAM_FRAME_FORMAT × FLOAT)
  LucamEnableFastFrames : Int → LUCAM_SNAPSHOT → Bool
  LucamDisableFastFrames : Int → Bool
  /-- LucamTakeFastFrame: handle to the bytes the native call writes into the
  caller's buffer, as a function of the flat row-major offset; none models a
  FALSE return. -/
  LucamTakeFastFrame : Int → Option (Nat → Fin 256)
  LucamStreamVideoControl : Int → Int → Bool
  LucamOneShotAutoWhiteBalance : Int → Int → Int → Int → Int → Bool
  LucamCameraClose : Int → Bool

/-- The LucamProperty enumeration members. -/
inductive LucamProperty where
  | gain
  | gain_red
  | gain_blue
  | gain_green1
  | gain_green2
  deriving Repr, DecidableEq

/-- The value of a LucamProperty member, bound at import time from the
library's property constants. -/
def LucamProperty.value (lib : LucamLib) : LucamProperty → Int
  | .gain => lib.LUCAM_PROP_GAIN
  | .gain_red => lib.LUCAM_PROP_GAIN_RED
  | .gain_blue => lib.LUCAM_PROP_GAIN_BLUE
  | .gain_green1 => lib.LUCAM_PROP_GAIN_GREEN1
  | .gain_green2 => lib.LUCAM_PROP_GAIN_GREEN2

/-- The camera session state: the native handle plus the cached format,
snapshot, framerate, width, height and the fast-frames mode flag. -/
structure LucamCamera where
  handle : Int
  format : Format
  snapshot : Snapshot
  framerate : FLOAT
  width : Int
  height : Int
  fast_frames_enabled : Bool
  deriving Repr, DecidableEq

/-- The exceptions the wrapper can raise. -/
inductive PyError where
  /-- A LucamError carrying the numeric code fetched for the camera. -/
  | lucamError (code : Int)
  /-- getattr on the binding found no such symbol. -/
  | attributeError (name : String)
  /-- Building an array with a negative dimension. -/
  | valueError
  /-- Constructing the Snapshot dataclass from ill-formed keyword
  arguments. -/
  | typeError
  deriving Repr, DecidableEq

/-- One observed call across the native boundary (getattr lookups on the
binding included), recorded in order. -/
inductive NativeCall where
  | cameraOpen (number : Int)
  | getattrSym (name : String)
  | getProperty (handle propertyId : Int)
  | setProperty (handle propertyId : Int) (value : FLOAT)
  | getFormat (handle : Int)
  | enableFastFrames (handle : Int) (snapshot : LUCAM_SNAPSHOT)
  | disableFastFrames (handle : Int)
  | takeFastFrame (handle : Int) (bufferSize : Nat)
  | streamVideoControl (handle ctrlType : Int)
  | oneShotAutoWhiteBalance (handle startX startY width height : Int)
  | getLastErrorForCamera (handle : Int)
  | cameraClose (handle : Int)
  deriving Repr, DecidableEq

/-- The outcome of running a wrapper method: the session state afterwards
(where the mutations up to a raise persist, as on a Python object), the
native calls made in order, and the returned value or raised exception. -/
structure CamOut (α : Type) where
  cam : LucamCamera
  trace : List NativeCall
  result : Except PyError α
  deriving Repr

/-- A wrapper method as a state transformer over the session. -/
def CamM (α : Type) := LucamCamera → CamOut α

/-- Sequencing of wrapper steps: thread the session state, concatenate the
traces, stop at the first raised exception. -/
def camBind {α β : Type} (x : CamM α) (f : α → CamM β) : CamM β := fun cam =>
  let r := x cam
  match r.result with
  | .error e => ⟨r.cam, r.trace, .error e⟩
  | .ok a =>
    let r2 := f a r.cam
    ⟨r2.cam, r.trace ++ r2.trace, r2.result⟩

/-- A step that returns a value and does nothing. -/
def camPure {α : Type} (a : α) : CamM α := fun cam => ⟨cam, [], .ok a⟩

instance monadCamM : Monad CamM where
  pure := camPure
  bind := camBind

/-- Read the session state. -/
def getCam : CamM LucamCamera := fun cam => ⟨cam, [], .ok cam⟩

/-- Overwrite the session state (a field assignment on self). -/
def setCam (cam' : LucamCamera) : CamM Unit := fun _ => ⟨cam', [], .ok ()⟩

/-- Record one native call. -/
def emit (call : NativeCall) : CamM Unit := fun cam => ⟨cam, [call], .ok ()⟩

/-- Raise an exception. -/
def raise {α : Type} (e : PyError) : CamM α := fun cam => ⟨cam, [], .error e⟩

theorem camM_bind_eq {α β : Type} (x : CamM α) (f : α → CamM β) :
    x >>= f = camBind x f := rfl

theorem camM_pure_eq {α : Type} (a : α) : (pure a : CamM α) = camPure a := rfl

/-! ## The operation surface of the camera session -/

/-- LucamCamera.get_last_error: fetch the last error code for this camera. -/
def get_last_error (lib : LucamLib) : CamM Int := fun cam =>
  ⟨cam, [.getLastErrorForCamera cam.handle], .ok (lib.LucamGetLastErrorForCamera cam.handle)⟩

/-- Raising LucamError(self): the exception constructor fetches the camera's
last error code, and the raise carries it. -/
def raiseLucamError {α : Type} (lib : LucamLib) : CamM α := do
  let code ← get_last_error lib
  raise (.lucamError code)

/-- The three accepted shapes of a property identifier. -/
inductive PropArg where
  | enum (p : LucamProperty)
  | int (n : Int)
  | str (s : String)
  deriving Repr, DecidableEq

/-- LucamCamera._property_value: an enumeration member contributes its bound
value, an integer passes through, and a string is normalized to the native
symbol name and looked up on the binding (an unknown symbol is an
AttributeError from getattr). -/
def _property_value (lib : LucamLib) (property : PropArg) : CamM Int :=
  match property with
  | .enum p => pure (p.value lib)
  | .int n => pure n
  | .str s => fun cam =>
    let name := propertySymbolName s
    match lib.getSymbol name with
    | some v => ⟨cam, [.getattrSym name], .ok v⟩
    | none => ⟨cam, [.getattrSym name], .error (.attributeError name)⟩

/-- LucamCamera.get_property: resolve the identifier, call the native getter,
raise on failure, return the value written through the out-parameter. -/
def get_property (lib : LucamLib) (property : PropArg) : CamM FLOAT := do
  let pid ← _property_value lib property
  let cam ← getCam
  emit (.getProperty cam.handle pid)
  match lib.LucamGetProperty cam.handle pid with
  | some value => pure value
  | none => raiseLucamError lib

/-- LucamCamera.set_property: resolve the identifier, call the native setter
with flags 0, raise on failure. -/
def set_property (lib : LucamLib) (property : PropArg) (value : FLOAT) : CamM Unit := do
  let pid ← _property_value lib property
  let cam ← getCam
  emit (.setProperty cam.handle pid value)
  if lib.LucamSetProperty cam.handle pid value then pure () else raiseLucamError lib

/-- LucamCamera.get_format: query the native geometry and framerate, raise on
failure, cache format, framerate, width and height, return the format. -/
def get_format (lib : LucamLib) : CamM Format := do
  let cam ← getCam
  emit (.getFormat cam.handle)
  match lib.LucamGetFormat cam.handle with
  | none => raiseLucamError lib
  | some (lucam_format, framerate) =>
    let format := Format.from_lucam lucam_format
    setCam { cam with
      format := format, framerate := framerate,
      width := format.width, height := format.height }
    pure format

/-- A value in the keyword dictionary built by get_default_snapshot. -/
inductive SnapValue where
  | float (x : FLOAT)
  | fmt (f : Format)
  deriving Repr, DecidableEq

/-- Read a keyword value as a float field. -/
def SnapValue.asFloat : SnapValue → Option FLOAT
  | .float x => some x
  | .fmt _ => none

/-- Read a keyword value as the format field. -/
def SnapValue.asFormat : SnapValue → Option Format
  | .fmt f => some f
  | .float _ => none

/-- Constructing Snapshot(**kwargs) from the keyword dictionary: every field
must be present with the right type; anything else is a TypeError. -/
def Snapshot.ofKwargs (kw : List (String × SnapValue)) : Option Snapshot := do
  let exposure ← (kw.lookup "exposure").bind SnapValue.asFloat
  let gain ← (kw.lookup "gain").bind SnapValue.asFloat
  let gainRed ← (kw.lookup "gainRed").bind SnapValue.asFloat
  let gainBlue ← (kw.lookup "gainBlue").bind SnapValue.asFloat
  let gainGrn1 ← (kw.lookup "gainGrn1").bind SnapValue.asFloat
  let gainGrn2 ← (kw.lookup "gainGrn2").bind SnapValue.asFloat
  let timeout ← (kw.lookup "timeout").bind SnapValue.asFloat
  let format ← (kw.lookup "format").bind SnapValue.asFormat
  pure { exposure := exposure, gain := gain, gainRed := gainRed, gainBlue := gainBlue,
         gainGrn1 := gainGrn1, gainGrn2 := gainGrn2, timeout := timeout, format := format }

/-- One iteration of the get_default_snapshot loop: the value bound for one
annotated field name.  The format field re-queries the format, the timeout
field is the fixed constant 100, a field name containing the abbreviation Grn
queries the property under the name with Grn replaced by Green, and every
other field queries the property under its own name. -/
def snapshot_field (lib : LucamLib) (property : String) : CamM SnapValue := do
  if property = "format" then
    let f ← get_format lib
    pure (.fmt f)
  else if property = "timeout" then
    pure (.float 100)
  else if containsGrn property.data then
    let v ← get_property lib (.str ⟨replaceGrnGreen property.data⟩)
    pure (.float v)
  else
    let v ← get_property lib (.str property)
    pure (.float v)

/-- The loop of get_default_snapshot: walk the annotated field names in
order, binding each field's value into the keyword dictionary. -/
def default_snapshot_kwargs (lib : LucamLib) : List String → CamM (List (String × SnapValue))
  | [] => pure []
  | p :: ps => do
    let v ← snapshot_field lib p
    let rest ← default_snapshot_kwargs lib ps
    pure ((p, v) :: rest)

/-- LucamCamera.get_default_snapshot: derive a full Snapshot by walking the
annotated fields, cache it, and return it. -/
def get_default_snapshot (lib : LucamLib) : CamM Snapshot := do
  let kwargs ← default_snapshot_kwargs lib Snapshot.field_names
  match Snapshot.ofKwargs kwargs with
  | none => raise .typeError
  | some snap =>
    let cam ← getCam
    setCam { cam with snapshot := snap }
    pure snap

/-- LucamCamera.enable_fast_frames: marshal the provided snapshot, or the
cached one when none is provided, to the native layout and pass it to the
native call; raise on failure; set the mode flag true only on success. -/
def enable_fast_frames (lib : LucamLib) (snapshot? : Option Snapshot) : CamM Unit := do
  let cam ← getCam
  let snapshot := match snapshot? with
    | none => cam.snapshot
    | some s => s
  emit (.enableFastFrames cam.handle snapshot.as_lucam)
  if lib.LucamEnableFastFrames cam.handle snapshot.as_lucam then
    setCam { cam with fast_frames_enabled := true }
  else
    raiseLucamError lib

/-- LucamCamera.disable_fast_frames: raise on failure; set the mode flag
false only on success. -/
def disable_fast_frames (lib : LucamLib) : CamM Unit := do
  let cam ← getCam
  emit (.disableFastFrames cam.handle)
  if lib.LucamDisableFastFrames cam.handle then
    setCam { cam with fast_frames_enabled := false }
  else
    raiseLucamError lib

/-- The raw frame buffer take_fast_frame returns: a single-channel 8-bit
buffer of the given shape, its pixels stored row-major and contiguous as a
flat byte list. -/
structure ByteFrame where
  height : Int
  width : Int
  bytes : List (Fin 256)
  deriving Repr, DecidableEq

/-- LucamCamera.take_fast_frame: allocate a contiguous height-by-width 8-bit
buffer (a negative cached dimension would make the allocation itself raise),
let the native call fill it, raise on native failure, return the raw
buffer. -/
def take_fast_frame (lib : LucamLib) : CamM ByteFrame := do
  let cam ← getCam
  if cam.height < 0 ∨ cam.width < 0 then
    raise .valueError
  else
    let size := (cam.height * cam.width).toNat
    emit (.takeFastFrame cam.handle size)
    match lib.LucamTakeFastFrame cam.handle with
    | some bytes => pure ⟨cam.height, cam.width, (List.range size).map bytes⟩
    | none => raiseLucamError lib

/-- The pattern of every guarded native call in the wrapper: if the returned
status is falsy, raise a LucamError built from the camera's last error. -/
def check_or_raise (lib : LucamLib) (ok : Bool) : CamM Unit :=
  if ok then camPure () else raiseLucamError lib

/-- LucamCamera.white_balance: default the region width and height to the
cached sensor width and height; if fast frames are enabled, disable them;
start the video stream, run the one-shot auto white balance over the region,
stop the stream, re-derive the default snapshot, re-enable fast frames,
raising at the first failing native call.  The handle field is never
reassigned, so the single read of it at entry is faithful; the window-handle
out-parameter of the stream control calls has no observable effect and is not
modelled. -/
def white_balance (lib : LucamLib) (start_x start_y : Int)
    (width? height? : Option Int) : CamM Unit :=
  camBind getCam fun cam =>
  let width := width?.getD cam.width
  let height := height?.getD cam.height
  camBind (if cam.fast_frames_enabled then disable_fast_frames lib else camPure ())
    fun _ =>
  camBind (emit (.streamVideoControl cam.handle lib.START_STREAMING)) fun _ =>
  camBind (check_or_raise lib
    (lib.LucamStreamVideoControl cam.handle lib.START_STREAMING)) fun _ =>
  camBind (emit (.oneShotAutoWhiteBalance cam.handle start_x start_y width height))
    fun _ =>
  camBind (check_or_raise lib
    (lib.LucamOneShotAutoWhiteBalance cam.handle start_x start_y width height)) fun _ =>
  camBind (emit (.streamVideoControl cam.handle lib.STOP_STREAMING)) fun _ =>
  camBind (check_or_raise lib
    (lib.LucamStreamVideoControl cam.handle lib.STOP_STREAMING)) fun _ =>
  camBind (get_default_snapshot lib) fun _ =>
  enable_fast_frames lib none

/-- LucamCamera.camera_close: raise if the native close fails. -/
def camera_close (lib : LucamLib) : CamM Unit := do
  let cam ← getCam
  emit (.cameraClose cam.handle)
  if lib.LucamCameraClose cam.handle then pure () else raiseLucamError lib

/-- The session state right after LucamCameraOpen: class-level defaults
framerate 30 and fast frames disabled.  The format and snapshot attributes
are unset in Python until the constructor queries them; they carry
placeholder values here, overwritten before a successful constructor
returns. -/
def LucamCamera.fresh (handle : Int) : LucamCamera :=
  { handle := handle, format := default, snapshot := default, framerate := 30,
    width := 0, height := 0, fast_frames_enabled := false }

/-- The LucamCamera constructor: open the camera by index to obtain the
handle, then query the current format and the default snapshot. -/
def LucamCamera.construct (lib : LucamLib) (number : Int) : CamOut Unit :=
  let handle := lib.LucamCameraOpen number
  let body : CamM Unit := do
    let _ ← get_format lib
    let _ ← get_default_snapshot lib
    pure ()
  let r := body (LucamCamera.fresh handle)
  ⟨r.cam, .cameraOpen number :: r.trace, r.result⟩

instance exceptDecEq {ε α : Type} [DecidableEq ε] [DecidableEq α] :
    DecidableEq (Except ε α) := fun x y =>
  match x, y with
  | .ok a, .ok b =>
    if h : a = b then isTrue (by rw [h])
    else isFalse (by intro hh; cases hh; exact h rfl)
  | .error a, .error b =>
    if h : a = b then isTrue (by rw [h])
    else isFalse (by intro hh; cases hh; exact h rfl)
  | .ok _, .error _ => isFalse (by intro hh; cases hh)
  | .error _, .ok _ => isFalse (by intro hh; cases hh)

/-! ## Concrete oracle instances used by the witnesses -/

/-- A concrete native frame format used by the witnesses. -/
def lffW : LUCAM_FRAME_FORMAT :=
  { xOffset := 0, yOffset := 0, width := 7, height := 5, pixelFormat := 8,
    subSampleX := 1, binningX := 1, flagsX := 0, subSampleY := 1, binningY := 1,
    flagsY := 0 }

/-- A concrete library oracle on which every native call succeeds. -/
def libAllOk : LucamLib :=
  { getSymbol := fun _ => some 7
    LUCAM_PROP_GAIN := 40
    LUCAM_PROP_GAIN_RED := 41
    LUCAM_PROP_GAIN_BLUE := 42
    LUCAM_PROP_GAIN_GREEN1 := 43
    LUCAM_PROP_GAIN_GREEN2 := 44
    START_STREAMING := 1
    STOP_STREAMING := 0
    LucamCameraOpen := fun n => n
    LucamGetLastError := 0
    LucamGetLastErrorForCamera := fun _ => 0
    LucamGetProperty := fun _ _ => some 2
    LucamSetProperty := fun _ _ _ => true
    LucamGetFormat := fun _ => some (lffW, 30)
    LucamEnableFastFrames := fun _ _ => true
    LucamDisableFastFrames := fun _ => true
    LucamTakeFastFrame := fun _ => some (fun _ => 0)
    LucamStreamVideoControl := fun _ _ => true
    LucamOneShotAutoWhiteBalance := fun _ _ _ _ _ => true
    LucamCameraClose := fun _ => true }

/-- A concrete library oracle on which every native call fails (with last
error code 19, the timeout code). -/
def libAllFail : LucamLib :=
  { getSymbol := fun _ => none
    LUCAM_PROP_GAIN := 40
    LUCAM_PROP_GAIN_RED := 41
    LUCAM_PROP_GAIN_BLUE := 42
    LUCAM_PROP_GAIN_GREEN1 := 43
    LUCAM_PROP_GAIN_GREEN2 := 44
    START_STREAMING := 1
    STOP_STREAMING := 0
    LucamCameraOpen := fun _ => 0
    LucamGetLastError := 19
    LucamGetLastErrorForCamera := fun _ => 19
    LucamGetProperty := fun _ _ => none
    LucamSetProperty := fun _ _ _ => false
    LucamGetFormat := fun _ => none
    LucamEnableFastFrames := fun _ _ => false
    LucamDisableFastFrames := fun _ => false
    LucamTakeFastFrame := fun _ => none
    LucamStreamVideoControl := fun _ _ => false
    LucamOneShotAutoWhiteBalance := fun _ _ _ _ _ => false
    LucamCameraClose := fun _ => false }

/-- A concrete session state used by the witnesses. -/
def camW : LucamCamera :=
  { handle := 3, format := Format.from_lucam lffW,
    snapshot := { exposure := 10, gain := 1, gainRed := 1, gainBlue := 1,
                  gainGrn1 := 1, gainGrn2 := 1, timeout := 100,
                  format := Format.from_lucam lffW },
    framerate := 30, width := 7, height := 5, fast_frames_enabled := true }


/-! ## Equation lemmas: each operation characterized by the oracle answers -/

theorem raiseLucamError_eq {α : Type} (lib : LucamLib) (cam : LucamCamera) :
    raiseLucamError (α := α) lib cam =
      ⟨cam, [.getLastErrorForCamera cam.handle],
       .error (.lucamError (lib.LucamGetLastErrorForCamera cam.handle))⟩ := rfl

theorem get_property_str_eq (lib : LucamLib) (name : String) (cam : LucamCamera) :
    get_property lib (.str name) cam =
      match lib.getSymbol (propertySymbolName name) with
      | none =>
        ⟨cam, [.getattrSym (propertySymbolName name)],
         .error (.attributeError (propertySymbolName name))⟩
      | some pid =>
        match lib.LucamGetProperty cam.handle pid with
        | some v =>
          ⟨cam, [.getattrSym (propertySymbolName name), .getProperty cam.handle pid],
           .ok v⟩
        | none =>
          ⟨cam, [.getattrSym (propertySymbolName name), .getProperty cam.handle pid,
                 .getLastErrorForCamera cam.handle],
           .error (.lucamError (lib.LucamGetLastErrorForCamera cam.handle))⟩ := by
  cases h1 : lib.getSymbol (propertySymbolName name) with
  | none =>
    simp only [get_property, camM_bind_eq, camBind, _property_value, h1]
  | some pid =>
    cases h2 : lib.LucamGetProperty cam.handle pid <;>
      simp only [get_property, camM_bind_eq, camM_pure_eq, camBind, camPure,
        _property_value, getCam, emit, raiseLucamError_eq, h1, h2, List.cons_append,
        List.nil_append]

theorem get_format_eq (lib : LucamLib) (cam : LucamCamera) :
    get_format lib cam =
      match lib.LucamGetFormat cam.handle with
      | none =>
        ⟨cam, [.getFormat cam.handle, .getLastErrorForCamera cam.handle],
         .error (.lucamError (lib.LucamGetLastErrorForCamera cam.handle))⟩
      | some (lf, fr) =>
        ⟨{ cam with
            format := Format.from_lucam lf, framerate := fr,
            width := (Format.from_lucam lf).width, height := (Format.from_lucam lf).height },
         [.getFormat cam.handle], .ok (Format.from_lucam lf)⟩ := by
  cases h : lib.LucamGetFormat cam.handle with
  | none =>
    simp only [get_format, camM_bind_eq, camM_pure_eq, camBind, camPure, getCam, emit,
      setCam, raiseLucamError_eq, h, List.cons_append, List.nil_append]
  | some p =>
    obtain ⟨lf, fr⟩ := p
    simp only [get_format, camM_bind_eq, camM_pure_eq, camBind, camPure, getCam, emit,
      setCam, h, List.cons_append, List.nil_append, List.append_nil]

theorem enable_fast_frames_eq (lib : LucamLib) (snapshot? : Option Snapshot)
    (cam : LucamCamera) :
    enable_fast_frames lib snapshot? cam =
      let snapshot := match snapshot? with
        | none => cam.snapshot
        | some s => s
      if lib.LucamEnableFastFrames cam.handle snapshot.as_lucam then
        ⟨{ cam with fast_frames_enabled := true },
         [.enableFastFrames cam.handle snapshot.as_lucam], .ok ()⟩
      else
        ⟨cam, [.enableFastFrames cam.handle snapshot.as_lucam,
               .getLastErrorForCamera cam.handle],
         .error (.lucamError (lib.LucamGetLastErrorForCamera cam.handle))⟩ := by
  cases h : lib.LucamEnableFastFrames cam.handle
      (match snapshot? with | none => cam.snapshot | some s => s).as_lucam <;>
    simp only [enable_fast_frames, camM_bind_eq, camM_pure_eq, camBind, camPure, getCam,
      emit, setCam, raiseLucamError_eq, h, List.cons_append, List.nil_append,
      List.append_nil, if_true, if_false, Bool.false_eq_true, ite_false, ite_true]

theorem disable_fast_frames_eq (lib : LucamLib) (cam : LucamCamera) :
    disable_fast_frames lib cam =
      if lib.LucamDisableFastFrames cam.handle then
        ⟨{ cam with fast_frames_enabled := false },
         [.disableFastFrames cam.handle], .ok ()⟩
      else
        ⟨cam, [.disableFastFrames cam.handle, .getLastErrorForCamera cam.handle],
         .error (.lucamError (lib.LucamGetLastErrorForCamera cam.handle))⟩ := by
  cases h : lib.LucamDisableFastFrames cam.handle <;>
    simp only [disable_fast_frames, camM_bind_eq, camM_pure_eq, camBind, camPure, getCam,
      emit, setCam, raiseLucamError_eq, h, List.cons_append, List.nil_append,
      List.append_nil, if_true, if_false, Bool.false_eq_true, ite_false, ite_true]

theorem psn_exposure : propertySymbolName "exposure" = "LUCAM_PROP_EXPOSURE" := by decide

theorem psn_gain : propertySymbolName "gain" = "LUCAM_PROP_GAIN" := by decide

theorem psn_gainRed : propertySymbolName "gainRed" = "LUCAM_PROP_GAIN_RED" := by decide

theorem psn_gainBlue : propertySymbolName "gainBlue" = "LUCAM_PROP_GAIN_BLUE" := by decide

theorem psn_gainGreen1 : propertySymbolName "gainGreen1" = "LUCAM_PROP_GAIN_GREEN1" := by
  decide

theorem psn_gainGreen2 : propertySymbolName "gainGreen2" = "LUCAM_PROP_GAIN_GREEN2" := by
  decide

theorem snapshot_field_format_eq (lib : LucamLib) :
    snapshot_field lib "format" = camBind (get_format lib) (fun f => camPure (.fmt f)) := rfl

theorem snapshot_field_timeout_eq (lib : LucamLib) :
    snapshot_field lib "timeout" = camPure (.float 100) := rfl

theorem snapshot_field_exposure_eq (lib : LucamLib) :
    snapshot_field lib "exposure" =
      camBind (get_property lib (.str "exposure")) (fun v => camPure (.float v)) := rfl

theorem snapshot_field_gain_eq (lib : LucamLib) :
    snapshot_field lib "gain" =
      camBind (get_property lib (.str "gain")) (fun v => camPure (.float v)) := rfl

theorem snapshot_field_gainRed_eq (lib : LucamLib) :
    snapshot_field lib "gainRed" =
      camBind (get_property lib (.str "gainRed")) (fun v => camPure (.float v)) := rfl

theorem snapshot_field_gainBlue_eq (lib : LucamLib) :
    snapshot_field lib "gainBlue" =
      camBind (get_property lib (.str "gainBlue")) (fun v => camPure (.float v)) := rfl

theorem snapshot_field_gainGrn1_eq (lib : LucamLib) :
    snapshot_field lib "gainGrn1" =
      camBind (get_property lib (.str "gainGreen1")) (fun v => camPure (.float v)) := rfl

theorem snapshot_field_gainGrn2_eq (lib : LucamLib) :
    snapshot_field lib "gainGrn2" =
      camBind (get_property lib (.str "gainGreen2")) (fun v => camPure (.float v)) := rfl

/-! ## Trace reasoning: which native calls an operation can make -/

/-- Every native call an operation ever records satisfies the predicate,
whatever the session state it runs from. -/
def OnTrace {α : Type} (x : CamM α) (P : NativeCall → Prop) : Prop :=
  ∀ cam : LucamCamera, ∀ e ∈ (x cam).trace, P e

theorem onTrace_camBind {α β : Type} {P : NativeCall → Prop} {x : CamM α}
    {f : α → CamM β} (hx : OnTrace x P) (hf : ∀ a, OnTrace (f a) P) :
    OnTrace (camBind x f) P := by
  intro cam e he
  simp only [camBind] at he
  rcases hr : (x cam).result with err | a <;> simp only [hr] at he
  · exact hx cam e he
  · rcases List.mem_append.mp he with he | he
    · exact hx cam e he
    · exact hf a _ e he

theorem onTrace_of_empty {α : Type} {x : CamM α} (P : NativeCall → Prop)
    (h : ∀ cam, (x cam).trace = []) : OnTrace x P := by
  intro cam e he
  rw [h cam] at he
  exact absurd he (List.not_mem_nil e)

theorem onTrace_emit {P : NativeCall → Prop} {c : NativeCall} (h : P c) :
    OnTrace (emit c) P := by
  intro cam e he
  rw [List.mem_singleton.mp he]
  exact h

theorem onTrace_mono {α : Type} {P Q : NativeCall → Prop} {x : CamM α}
    (h : OnTrace x P) (hPQ : ∀ e, P e → Q e) : OnTrace x Q :=
  fun cam e he => hPQ e (h cam e he)

theorem onTrace_get_last_error {P : NativeCall → Prop} (lib : LucamLib)
    (h : ∀ hd : Int, P (.getLastErrorForCamera hd)) : OnTrace (get_last_error lib) P := by
  intro cam e he
  rw [List.mem_singleton.mp he]
  exact h cam.handle

theorem onTrace_raiseLucamError {α : Type} {P : NativeCall → Prop} (lib : LucamLib)
    (h : ∀ hd : Int, P (.getLastErrorForCamera hd)) :
    OnTrace (raiseLucamError (α := α) lib) P := by
  intro cam e he
  rw [raiseLucamError_eq] at he
  rw [List.mem_singleton.mp he]
  exact h cam.handle

theorem onTrace_get_property_str {P : NativeCall → Prop} (lib : LucamLib) (s : String)
    (h1 : P (.getattrSym (propertySymbolName s)))
    (h2 : ∀ hd p : Int, P (.getProperty hd p))
    (h3 : ∀ hd : Int, P (.getLastErrorForCamera hd)) :
    OnTrace (get_property lib (.str s)) P := by
  intro cam e he
  rw [get_property_str_eq] at he
  rcases hs : lib.getSymbol (propertySymbolName s) with _ | pid <;>
    simp only [hs] at he
  · rw [List.mem_singleton.mp he]
    exact h1
  · rcases hv : lib.LucamGetProperty cam.handle pid with _ | v <;>
      simp only [hv, List.mem_cons, List.not_mem_nil, or_false] at he
    · rcases he with rfl | rfl | rfl
      · exact h1
      · exact h2 cam.handle pid
      · exact h3 cam.handle
    · rcases he with rfl | rfl
      · exact h1
      · exact h2 cam.handle pid

theorem onTrace_get_format {P : NativeCall → Prop} (lib : LucamLib)
    (h1 : ∀ hd : Int, P (.getFormat hd))
    (h2 : ∀ hd : Int, P (.getLastErrorForCamera hd)) :
    OnTrace (get_format lib) P := by
  intro cam e he
  rw [get_format_eq] at he
  rcases hf : lib.LucamGetFormat cam.handle with _ | ⟨lf, fr⟩ <;>
    simp only [hf, List.mem_cons, List.not_mem_nil, or_false] at he
  · rcases he with rfl | rfl
    · exact h1 cam.handle
    · exact h2 cam.handle
  · rw [he]
    exact h1 cam.handle

/-- The six native property symbol names get_default_snapshot resolves. -/
def sixPropSymbols : List String :=
  ["LUCAM_PROP_EXPOSURE", "LUCAM_PROP_GAIN", "LUCAM_PROP_GAIN_RED",
   "LUCAM_PROP_GAIN_BLUE", "LUCAM_PROP_GAIN_GREEN1", "LUCAM_PROP_GAIN_GREEN2"]

/-- The calls get_default_snapshot can make: symbol lookups of the six
translated property names, property reads, format reads, error-code
fetches. -/
def snapTraceP (e : NativeCall) : Prop :=
  (∃ name ∈ sixPropSymbols, e = .getattrSym name) ∨
  (∃ hd p : Int, e = .getProperty hd p) ∨
  (∃ hd : Int, e = .getFormat hd) ∨
  (∃ hd : Int, e = .getLastErrorForCamera hd)

theorem onTrace_snapshot_fields (lib : LucamLib) :
    OnTrace (default_snapshot_kwargs lib Snapshot.field_names) snapTraceP := by
  have hget : ∀ s : String, propertySymbolName s ∈ sixPropSymbols →
      OnTrace (get_property lib (PropArg.str s)) snapTraceP := by
    intro s hs
    refine onTrace_get_property_str lib s ?_ ?_ ?_
    · exact Or.inl ⟨propertySymbolName s, hs, rfl⟩
    · exact fun hd p => Or.inr (Or.inl ⟨hd, p, rfl⟩)
    · exact fun hd => Or.inr (Or.inr (Or.inr ⟨hd, rfl⟩))
  have hfloat : ∀ s : String, propertySymbolName s ∈ sixPropSymbols →
      OnTrace (camBind (get_property lib (PropArg.str s))
        (fun v => camPure (SnapValue.float v))) snapTraceP := by
    intro s hs
    exact onTrace_camBind (hget s hs) fun a => onTrace_of_empty _ fun _ => rfl
  have hfmt : OnTrace (camBind (get_format lib) (fun f => camPure (SnapValue.fmt f)))
      snapTraceP := by
    refine onTrace_camBind (onTrace_get_format lib ?_ ?_)
      fun a => onTrace_of_empty _ fun _ => rfl
    · exact fun hd => Or.inr (Or.inr (Or.inl ⟨hd, rfl⟩))
    · exact fun hd => Or.inr (Or.inr (Or.inr ⟨hd, rfl⟩))
  simp only [Snapshot.field_names, default_snapshot_kwargs, snapshot_field_exposure_eq,
    snapshot_field_gain_eq, snapshot_field_gainRed_eq, snapshot_field_gainBlue_eq,
    snapshot_field_gainGrn1_eq, snapshot_field_gainGrn2_eq, snapshot_field_timeout_eq,
    snapshot_field_format_eq, camM_bind_eq, camM_pure_eq]
  refine onTrace_camBind (hfloat "exposure" (by rw [psn_exposure]; simp [sixPropSymbols]))
    fun _ => ?_
  refine onTrace_camBind ?_ fun _ => onTrace_of_empty _ fun _ => rfl
  refine onTrace_camBind (hfloat "gain" (by rw [psn_gain]; simp [sixPropSymbols]))
    fun _ => ?_
  refine onTrace_camBind ?_ fun _ => onTrace_of_empty _ fun _ => rfl
  refine onTrace_camBind (hfloat "gainRed" (by rw [psn_gainRed]; simp [sixPropSymbols]))
    fun _ => ?_
  refine onTrace_camBind ?_ fun _ => onTrace_of_empty _ fun _ => rfl
  refine onTrace_camBind (hfloat "gainBlue" (by rw [psn_gainBlue]; simp [sixPropSymbols]))
    fun _ => ?_
  refine onTrace_camBind ?_ fun _ => onTrace_of_empty _ fun _ => rfl
  refine onTrace_camBind
    (hfloat "gainGreen1" (by rw [psn_gainGreen1]; simp [sixPropSymbols])) fun _ => ?_
  refine onTrace_camBind ?_ fun _ => onTrace_of_empty _ fun _ => rfl
  refine onTrace_camBind
    (hfloat "gainGreen2" (by rw [psn_gainGreen2]; simp [sixPropSymbols])) fun _ => ?_
  refine onTrace_camBind ?_ fun _ => onTrace_of_empty _ fun _ => rfl
  refine onTrace_camBind (onTrace_of_empty _ fun _ => rfl) fun _ => ?_
  refine onTrace_camBind ?_ fun _ => onTrace_of_empty _ fun _ => rfl
  refine onTrace_camBind hfmt fun _ => ?_
  exact onTrace_camBind (onTrace_of_empty _ fun _ => rfl) fun _ =>
    onTrace_of_empty _ fun _ => rfl

theorem onTrace_get_default_snapshot (lib : LucamLib) :
    OnTrace (get_default_snapshot lib) snapTraceP := by
  simp only [get_default_snapshot, camM_bind_eq, camM_pure_eq]
  refine onTrace_camBind (onTrace_snapshot_fields lib) fun kwargs => ?_
  rcases Snapshot.ofKwargs kwargs with _ | snap
  · exact onTrace_of_empty _ fun _ => rfl
  · refine onTrace_camBind (onTrace_of_empty _ fun _ => rfl) fun c => ?_
    exact onTrace_camBind (onTrace_of_empty _ fun _ => rfl) fun _ =>
      onTrace_of_empty _ fun _ => rfl

/-! ## The success and failure paths of get_default_snapshot -/

/-- The library answers get_default_snapshot needs for every underlying query
to succeed. -/
def defaultSnapshotAnswers (lib : LucamLib) (cam : LucamCamera) : Prop :=
  (∃ x, lib.LucamGetFormat cam.handle = some x) ∧
  ∀ name ∈ sixPropSymbols, ∃ pid, lib.getSymbol name = some pid ∧
    ∃ v, lib.LucamGetProperty cam.handle pid = some v

theorem get_default_snapshot_ok (lib : LucamLib) (cam : LucamCamera)
    {pidE pidG pidR pidB pid1 pid2 : Int} {vE vG vR vB v1 v2 : FLOAT}
    {lf : LUCAM_FRAME_FORMAT} {fr : FLOAT}
    (hE : lib.getSymbol "LUCAM_PROP_EXPOSURE" = some pidE)
    (hvE : lib.LucamGetProperty cam.handle pidE = some vE)
    (hG : lib.getSymbol "LUCAM_PROP_GAIN" = some pidG)
    (hvG : lib.LucamGetProperty cam.handle pidG = some vG)
    (hR : lib.getSymbol "LUCAM_PROP_GAIN_RED" = some pidR)
    (hvR : lib.LucamGetProperty cam.handle pidR = some vR)
    (hB : lib.getSymbol "LUCAM_PROP_GAIN_BLUE" = some pidB)
    (hvB : lib.LucamGetProperty cam.handle pidB = some vB)
    (h1 : lib.getSymbol "LUCAM_PROP_GAIN_GREEN1" = some pid1)
    (hv1 : lib.LucamGetProperty cam.handle pid1 = some v1)
    (h2 : lib.getSymbol "LUCAM_PROP_GAIN_GREEN2" = some pid2)
    (hv2 : lib.LucamGetProperty cam.handle pid2 = some v2)
    (hF : lib.LucamGetFormat cam.handle = some (lf, fr)) :
    get_default_snapshot lib cam =
      ⟨{ cam with
          format := Format.from_lucam lf, framerate := fr,
          width := (Format.from_lucam lf).width,
          height := (Format.from_lucam lf).height,
          snapshot := { exposure := vE, gain := vG, gainRed := vR, gainBlue := vB,
                        gainGrn1 := v1, gainGrn2 := v2, timeout := 100,
                        format := Format.from_lucam lf } },
       [.getattrSym "LUCAM_PROP_EXPOSURE", .getProperty cam.handle pidE,
        .getattrSym "LUCAM_PROP_GAIN", .getProperty cam.handle pidG,
        .getattrSym "LUCAM_PROP_GAIN_RED", .getProperty cam.handle pidR,
        .getattrSym "LUCAM_PROP_GAIN_BLUE", .getProperty cam.handle pidB,
        .getattrSym "LUCAM_PROP_GAIN_GREEN1", .getProperty cam.handle pid1,
        .getattrSym "LUCAM_PROP_GAIN_GREEN2", .getProperty cam.handle pid2,
        .getFormat cam.handle],
       .ok { exposure := vE, gain := vG, gainRed := vR, gainBlue := vB,
             gainGrn1 := v1, gainGrn2 := v2, timeout := 100,
             format := Format.from_lucam lf }⟩ := by
  simp only [get_default_snapshot, Snapshot.field_names, default_snapshot_kwargs,
    snapshot_field_exposure_eq, snapshot_field_gain_eq, snapshot_field_gainRed_eq,
    snapshot_field_gainBlue_eq, snapshot_field_gainGrn1_eq, snapshot_field_gainGrn2_eq,
    snapshot_field_timeout_eq, snapshot_field_format_eq, camM_bind_eq, camM_pure_eq,
    camBind, camPure, get_property_str_eq, get_format_eq, psn_exposure, psn_gain,
    psn_gainRed, psn_gainBlue, psn_gainGreen1, psn_gainGreen2,
    hE, hvE, hG, hvG, hR, hvR, hB, hvB, h1, hv1, h2, hv2, hF, getCam, setCam,
    Snapshot.ofKwargs, List.lookup, SnapValue.asFloat, SnapValue.asFormat,
    Option.bind, Option.bind_eq_bind, Option.some_bind, String.reduceBEq,
    List.cons_append, List.nil_append, List.append_nil]

theorem get_default_snapshot_error (lib : LucamLib) (cam : LucamCamera)
    (h : ¬ defaultSnapshotAnswers lib cam) :
    ∃ e, (get_default_snapshot lib cam).result = .error e := by
  rcases hE : lib.getSymbol "LUCAM_PROP_EXPOSURE" with _ | pidE
  · exact ⟨.attributeError "LUCAM_PROP_EXPOSURE", by
      simp only [get_default_snapshot, Snapshot.field_names, default_snapshot_kwargs,
        snapshot_field_exposure_eq, snapshot_field_gain_eq, snapshot_field_gainRed_eq,
        snapshot_field_gainBlue_eq, snapshot_field_gainGrn1_eq, snapshot_field_gainGrn2_eq,
        snapshot_field_timeout_eq, snapshot_field_format_eq, camM_bind_eq, camM_pure_eq,
        camBind, camPure, get_property_str_eq, get_format_eq, psn_exposure, psn_gain,
        psn_gainRed, psn_gainBlue, psn_gainGreen1, psn_gainGreen2, hE]⟩
  rcases hvE : lib.LucamGetProperty cam.handle pidE with _ | vE
  · exact ⟨.lucamError (lib.LucamGetLastErrorForCamera cam.handle), by
      simp only [get_default_snapshot, Snapshot.field_names, default_snapshot_kwargs,
        snapshot_field_exposure_eq, snapshot_field_gain_eq, snapshot_field_gainRed_eq,
        snapshot_field_gainBlue_eq, snapshot_field_gainGrn1_eq, snapshot_field_gainGrn2_eq,
        snapshot_field_timeout_eq, snapshot_field_format_eq, camM_bind_eq, camM_pure_eq,
        camBind, camPure, get_property_str_eq, get_format_eq, psn_exposure, psn_gain,
        psn_gainRed, psn_gainBlue, psn_gainGreen1, psn_gainGreen2, hE, hvE]⟩
  rcases hG : lib.getSymbol "LUCAM_PROP_GAIN" with _ | pidG
  · exact ⟨.attributeError "LUCAM_PROP_GAIN", by
      simp only [get_default_snapshot, Snapshot.field_names, default_snapshot_kwargs,
        snapshot_field_exposure_eq, snapshot_field_gain_eq, snapshot_field_gainRed_eq,
        snapshot_field_gainBlue_eq, snapshot_field_gainGrn1_eq, snapshot_field_gainGrn2_eq,
        snapshot_field_timeout_eq, snapshot_field_format_eq, camM_bind_eq, camM_pure_eq,
        camBind, camPure, get_property_str_eq, get_format_eq, psn_exposure, psn_gain,
        psn_gainRed, psn_gainBlue, psn_gainGreen1, psn_gainGreen2, hE, hvE, hG]⟩
  rcases hvG : lib.LucamGetProperty cam.handle pidG with _ | vG
  · exact ⟨.lucamError (lib.LucamGetLastErrorForCamera cam.handle), by
      simp only [get_default_snapshot, Snapshot.field_names, default_snapshot_kwargs,
        snapshot_field_exposure_eq, snapshot_field_gain_eq, snapshot_field_gainRed_eq,
        snapshot_field_gainBlue_eq, snapshot_field_gainGrn1_eq, snapshot_field_gainGrn2_eq,
        snapshot_field_timeout_eq, snapshot_field_format_eq, camM_bind_eq, camM_pure_eq,
        camBind, camPure, get_property_str_eq, get_format_eq, psn_exposure, psn_gain,
        psn_gainRed, psn_gainBlue, psn_gainGreen1, psn_gainGreen2, hE, hvE, hG, hvG]⟩
  rcases hR : lib.getSymbol "LUCAM_PROP_GAIN_RED" with _ | pidR
  · exact ⟨.attributeError "LUCAM_PROP_GAIN_RED", by
      simp only [get_default_snapshot, Snapshot.field_names, default_snapshot_kwargs,
        snapshot_field_exposure_eq, snapshot_field_gain_eq, snapshot_field_gainRed_eq,
        snapshot_field_gainBlue_eq, snapshot_field_gainGrn1_eq, snapshot_field_gainGrn2_eq,
        snapshot_field_timeout_eq, snapshot_field_format_eq, camM_bind_eq, camM_pure_eq,
        camBind, camPure, get_property_str_eq, get_format_eq, psn_exposure, psn_gain,
        psn_gainRed, psn_gainBlue, psn_gainGreen1, psn_gainGreen2, hE, hvE, hG, hvG, hR]⟩
  rcases hvR : lib.LucamGetProperty cam.handle pidR with _ | vR
  · exact ⟨.lucamError (lib.LucamGetLastErrorForCamera cam.handle), by
      simp only [get_default_snapshot, Snapshot.field_names, default_snapshot_kwargs,
        snapshot_field_exposure_eq, snapshot_field_gain_eq, snapshot_field_gainRed_eq,
        snapshot_field_gainBlue_eq, snapshot_field_gainGrn1_eq, snapshot_field_gainGrn2_eq,
        snapshot_field_timeout_eq, snapshot_field_format_eq, camM_bind_eq, camM_pure_eq,
        camBind, camPure, get_property_str_eq, get_format_eq, psn_exposure, psn_gain,
        psn_gainRed, psn_gainBlue, psn_gainGreen1, psn_gainGreen2,
        hE, hvE, hG, hvG, hR, hvR]⟩
  rcases hB : lib.getSymbol "LUCAM_PROP_GAIN_BLUE" with _ | pidB
  · exact ⟨.attributeError "LUCAM_PROP_GAIN_BLUE", by
      simp only [get_default_snapshot, Snapshot.field_names, default_snapshot_kwargs,
        snapshot_field_exposure_eq, snapshot_field_gain_eq, snapshot_field_gainRed_eq,
        snapshot_field_gainBlue_eq, snapshot_field_gainGrn1_eq, snapshot_field_gainGrn2_eq,
        snapshot_field_timeout_eq, snapshot_field_format_eq, camM_bind_eq, camM_pure_eq,
        camBind, camPure, get_property_str_eq, get_format_eq, psn_exposure, psn_gain,
        psn_gainRed, psn_gainBlue, psn_gainGreen1, psn_gainGreen2,
        hE, hvE, hG, hvG, hR, hvR, hB]⟩
  rcases hvB : lib.LucamGetProperty cam.handle pidB with _ | vB
  · exact ⟨.lucamError (lib.LucamGetLastErrorForCamera cam.handle), by
      simp only [get_default_snapshot, Snapshot.field_names, default_snapshot_kwargs,
        snapshot_field_exposure_eq, snapshot_field_gain_eq, snapshot_field_gainRed_eq,
        snapshot_field_gainBlue_eq, snapshot_field_gainGrn1_eq, snapshot_field_gainGrn2_eq,
        snapshot_field_timeout_eq, snapshot_field_format_eq, camM_bind_eq, camM_pure_eq,
        camBind, camPure, get_property_str_eq, get_format_eq, psn_exposure, psn_gain,
        psn_gainRed, psn_gainBlue, psn_gainGreen1, psn_gainGreen2,
        hE, hvE, hG, hvG, hR, hvR, hB, hvB]⟩
  rcases h1 : lib.getSymbol "LUCAM_PROP_GAIN_GREEN1" with _ | pid1
  · exact ⟨.attributeError "LUCAM_PROP_GAIN_GREEN1", by
      simp only [get_default_snapshot, Snapshot.field_names, default_snapshot_kwargs,
        snapshot_field_exposure_eq, snapshot_field_gain_eq, snapshot_field_gainRed_eq,
        snapshot_field_gainBlue_eq, snapshot_field_gainGrn1_eq, snapshot_field_gainGrn2_eq,
        snapshot_field_timeout_eq, snapshot_field_format_eq, camM_bind_eq, camM_pure_eq,
        camBind, camPure, get_property_str_eq, get_format_eq, psn_exposure, psn_gain,
        psn_gainRed, psn_gainBlue, psn_gainGreen1, psn_gainGreen2,
        hE, hvE, hG, hvG, hR, hvR, hB, hvB, h1]⟩
  rcases hv1 : lib.LucamGetProperty cam.handle pid1 with _ | v1
  · exact ⟨.lucamError (lib.LucamGetLastErrorForCamera cam.handle), by
      simp only [get_default_snapshot, Snapshot.field_names, default_snapshot_kwargs,
        snapshot_field_exposure_eq, snapshot_field_gain_eq, snapshot_field_gainRed_eq,
        snapshot_field_gainBlue_eq, snapshot_field_gainGrn1_eq, snapshot_field_gainGrn2_eq,
        snapshot_field_timeout_eq, snapshot_field_format_eq, camM_bind_eq, camM_pure_eq,
        camBind, camPure, get_property_str_eq, get_format_eq, psn_exposure, psn_gain,
        psn_gainRed, psn_gainBlue, psn_gainGreen1, psn_gainGreen2,
        hE, hvE, hG, hvG, hR, hvR, hB, hvB, h1, hv1]⟩
  rcases h2 : lib.getSymbol "LUCAM_PROP_GAIN_GREEN2" with _ | pid2
  · exact ⟨.attributeError "LUCAM_PROP_GAIN_GREEN2", by
      simp only [get_default_snapshot, Snapshot.field_names, default_snapshot_kwargs,
        snapshot_field_exposure_eq, snapshot_field_gain_eq, snapshot_field_gainRed_eq,
        snapshot_field_gainBlue_eq, snapshot_field_gainGrn1_eq, snapshot_field_gainGrn2_eq,
        snapshot_field_timeout_eq, snapshot_field_format_eq, camM_bind_eq, camM_pure_eq,
        camBind, camPure, get_property_str_eq, get_format_eq, psn_exposure, psn_gain,
        psn_gainRed, psn_gainBlue, psn_gainGreen1, psn_gainGreen2,
        hE, hvE, hG, hvG, hR, hvR, hB, hvB, h1, hv1, h2]⟩
  rcases hv2 : lib.LucamGetProperty cam.handle pid2 with _ | v2
  · exact ⟨.lucamError (lib.LucamGetLastErrorForCamera cam.handle), by
      simp only [get_default_snapshot, Snapshot.field_names, default_snapshot_kwargs,
        snapshot_field_exposure_eq, snapshot_field_gain_eq, snapshot_field_gainRed_eq,
        snapshot_field_gainBlue_eq, snapshot_field_gainGrn1_eq, snapshot_field_gainGrn2_eq,
        snapshot_field_timeout_eq, snapshot_field_format_eq, camM_bind_eq, camM_pure_eq,
        camBind, camPure, get_property_str_eq, get_format_eq, psn_exposure, psn_gain,
        psn_gainRed, psn_gainBlue, psn_gainGreen1, psn_gainGreen2,
        hE, hvE, hG, hvG, hR, hvR, hB, hvB, h1, hv1, h2, hv2]⟩
  rcases hF : lib.LucamGetFormat cam.handle with _ | ⟨lf, fr⟩
  · exact ⟨.lucamError (lib.LucamGetLastErrorForCamera cam.handle), by
      simp only [get_default_snapshot, Snapshot.field_names, default_snapshot_kwargs,
        snapshot_field_exposure_eq, snapshot_field_gain_eq, snapshot_field_gainRed_eq,
        snapshot_field_gainBlue_eq, snapshot_field_gainGrn1_eq, snapshot_field_gainGrn2_eq,
        snapshot_field_timeout_eq, snapshot_field_format_eq, camM_bind_eq, camM_pure_eq,
        camBind, camPure, get_property_str_eq, get_format_eq, psn_exposure, psn_gain,
        psn_gainRed, psn_gainBlue, psn_gainGreen1, psn_gainGreen2,
        hE, hvE, hG, hvG, hR, hvR, hB, hvB, h1, hv1, h2, hv2, hF]⟩
  refine absurd ⟨⟨(lf, fr), hF⟩, ?_⟩ h
  intro name hname
  simp only [sixPropSymbols, List.mem_cons, List.not_mem_nil, or_false] at hname
  rcases hname with rfl | rfl | rfl | rfl | rfl | rfl
  · exact ⟨pidE, hE, vE, hvE⟩
  · exact ⟨pidG, hG, vG, hvG⟩
  · exact ⟨pidR, hR, vR, hvR⟩
  · exact ⟨pidB, hB, vB, hvB⟩
  · exact ⟨pid1, h1, v1, hv1⟩
  · exact ⟨pid2, h2, v2, hv2⟩

/-! ## The claims -/

/-- C1: for every whitespace-free string property identifier, if it contains
no underscore the resolved native symbol name is obtained by splitting the
string at each capital letter, rejoining the words with underscores,
upper-casing the result and prepending the prefix LUCAM_PROP_ (the
specification-side normalization specSymbolName); a string that already
contains an underscore is passed through upper-casing and prefixing without
re-splitting. -/
theorem property_name_normalization (s : String)
    (hws : ∀ c ∈ s.data, ¬ c.isWhitespace) :
    (pyContainsChar s '_' = false → propertySymbolName s = specSymbolName s) ∧
    (pyContainsChar s '_' = true →
      propertySymbolName s = "LUCAM_PROP_" ++ pyUpper s) := by
  constructor
  · intro h
    unfold propertySymbolName specSymbolName
    simp only [h, Bool.false_eq_true, if_false]
    rw [splitCamel_eq_splitAtCapitals s.data hws]
  · intro h
    unfold propertySymbolName
    simp only [h, if_true]

/-- Witness for C1 at the spec's own examples: gainRed resolves through the
capital-split normalization and gain_red through the underscore pass-through,
both to LUCAM_PROP_GAIN_RED. -/
theorem property_name_normalization_witness :
    propertySymbolName "gainRed" = specSymbolName "gainRed" ∧
    propertySymbolName "gain_red" = "LUCAM_PROP_" ++ pyUpper "gain_red" ∧
    propertySymbolName "gainRed" = "LUCAM_PROP_GAIN_RED" ∧
    propertySymbolName "gain_red" = "LUCAM_PROP_GAIN_RED" :=
  ⟨(property_name_normalization "gainRed" (by decide)).1 (by decide),
   (property_name_normalization "gain_red" (by decide)).2 (by decide),
   by decide, by decide⟩

/-- C3: marshalling a Format to the native LUCAM_FRAME_FORMAT layout with
as_lucam and converting back with from_lucam is the identity on every Format
record (all eleven fields). -/
theorem format_marshalling_roundtrip (f : Format) :
    Format.from_lucam (Format.as_lucam f) = f := rfl

/-- C4: rendering a LucamError whose value is a code from 0 to 99 succeeds
with exactly the text registered for that code in the static CODES table, and
for every integer outside 0 to 99 the lookup fails (none, the KeyError) and
no default or placeholder string is returned. -/
theorem error_code_rendering (c : Int) :
    (0 ≤ c ∧ c ≤ 99 →
      ∃ text, LucamError.render c = some text ∧ (c, text) ∈ LucamError.CODES) ∧
    (¬ (0 ≤ c ∧ c ≤ 99) → LucamError.render c = none) := by
  constructor
  · rintro ⟨h0, h99⟩
    have hb : ∀ n : Nat, n < 100 →
        ((LucamError.CODES.lookup ((n : Nat) : Int)).isSome = true) := by decide
    have hc : c = ((c.toNat : Nat) : Int) := (Int.toNat_of_nonneg h0).symm
    have hlt : c.toNat < 100 := by omega
    have hs := hb c.toNat hlt
    rw [← hc] at hs
    obtain ⟨text, ht⟩ := Option.isSome_iff_exists.mp hs
    exact ⟨text, ht, lookup_mem_int ht⟩
  · intro h
    apply lookup_eq_none_int
    have hb : ∀ p ∈ LucamError.CODES, 0 ≤ p.1 ∧ p.1 ≤ 99 := by decide
    intro p hp hpa
    exact h (hpa ▸ hb p hp)

/-- Witness for C4: code 5 renders to its registered text and code 100 is a
lookup failure. -/
theorem error_code_rendering_witness :
    (∃ text, LucamError.render 5 = some text ∧ ((5 : Int), text) ∈ LucamError.CODES) ∧
    LucamError.render 100 = none :=
  ⟨(error_code_rendering 5).1 (by decide), (error_code_rendering 100).2 (by decide)⟩

/-- C5: after a successful enable_fast_frames the fast_frames_enabled flag is
true; after a successful disable_fast_frames it is false; and after a failing
call to either, the flag keeps exactly its pre-call value. -/
theorem fast_frames_flag_consistency (lib : LucamLib) (cam : LucamCamera)
    (snapshot? : Option Snapshot) :
    ((enable_fast_frames lib snapshot? cam).result = .ok () →
      (enable_fast_frames lib snapshot? cam).cam.fast_frames_enabled = true) ∧
    (∀ e, (enable_fast_frames lib snapshot? cam).result = .error e →
      (enable_fast_frames lib snapshot? cam).cam.fast_frames_enabled =
        cam.fast_frames_enabled) ∧
    ((disable_fast_frames lib cam).result = .ok () →
      (disable_fast_frames lib cam).cam.fast_frames_enabled = false) ∧
    (∀ e, (disable_fast_frames lib cam).result = .error e →
      (disable_fast_frames lib cam).cam.fast_frames_enabled =
        cam.fast_frames_enabled) := by
  rw [enable_fast_frames_eq, disable_fast_frames_eq]
  cases hE : lib.LucamEnableFastFrames cam.handle
      (match snapshot? with | none => cam.snapshot | some s => s).as_lucam <;>
    cases hD : lib.LucamDisableFastFrames cam.handle <;>
    simp [hE, hD]

/-- Witness for C5: on an all-success library the flag becomes true after
enable and false after disable; on an all-failure library both calls leave
the flag at its pre-call value. -/
theorem fast_frames_flag_consistency_witness :
    (enable_fast_frames libAllOk none camW).cam.fast_frames_enabled = true ∧
    (disable_fast_frames libAllOk camW).cam.fast_frames_enabled = false ∧
    (enable_fast_frames libAllFail none camW).cam.fast_frames_enabled =
      camW.fast_frames_enabled ∧
    (disable_fast_frames libAllFail camW).cam.fast_frames_enabled =
      camW.fast_frames_enabled :=
  ⟨(fast_frames_flag_consistency libAllOk camW none).1 (by decide),
   (fast_frames_flag_consistency libAllOk camW none).2.2.1 (by decide),
   (fast_frames_flag_consistency libAllFail camW none).2.1 (.lucamError 19) (by decide),
   (fast_frames_flag_consistency libAllFail camW none).2.2.2 (.lucamError 19) (by decide)⟩

/-- C10: enable_fast_frames called with an explicitly provided snapshot only
marshals it to the native layout and passes it to the native call; the cached
snapshot, format, framerate, width and height keep their pre-call values on
both the success and the failure path. -/
theorem enable_fast_frames_preserves_caches (lib : LucamLib) (cam : LucamCamera)
    (s : Snapshot) :
    (enable_fast_frames lib (some s) cam).cam.snapshot = cam.snapshot ∧
    (enable_fast_frames lib (some s) cam).cam.format = cam.format ∧
    (enable_fast_frames lib (some s) cam).cam.framerate = cam.framerate ∧
    (enable_fast_frames lib (some s) cam).cam.width = cam.width ∧
    (enable_fast_frames lib (some s) cam).cam.height = cam.height ∧
    NativeCall.enableFastFrames cam.handle s.as_lucam ∈
      (enable_fast_frames lib (some s) cam).trace := by
  rw [enable_fast_frames_eq]
  cases hE : lib.LucamEnableFastFrames cam.handle s.as_lucam <;> simp [hE]

/-- C8: on success take_fast_frame returns a row-major contiguous
single-channel 8-bit buffer whose shape is exactly the cached height by the
cached width (its flat byte list has exactly height times width entries); on
native failure it raises a LucamError. -/
theorem take_fast_frame_buffer (lib : LucamLib) (cam : LucamCamera) :
    (∀ frame, (take_fast_frame lib cam).result = .ok frame →
      frame.height = cam.height ∧ frame.width = cam.width ∧
      frame.bytes.length = (cam.height * cam.width).toNat) ∧
    (0 ≤ cam.height → 0 ≤ cam.width → lib.LucamTakeFastFrame cam.handle = none →
      ∃ code, (take_fast_frame lib cam).result = .error (.lucamError code)) := by
  constructor
  · intro frame hf
    by_cases hneg : cam.height < 0 ∨ cam.width < 0
    · simp only [take_fast_frame, camM_bind_eq, camM_pure_eq, camBind, camPure, getCam,
        emit, raise, hneg, if_true] at hf
      exact Except.noConfusion hf
    · rcases ht : lib.LucamTakeFastFrame cam.handle with _ | bytes
      · simp only [take_fast_frame, camM_bind_eq, camM_pure_eq, camBind, camPure, getCam,
          emit, raise, raiseLucamError_eq, hneg, if_false, ht] at hf
        exact Except.noConfusion hf
      · simp only [take_fast_frame, camM_bind_eq, camM_pure_eq, camBind, camPure, getCam,
          emit, raise, hneg, if_false, ht] at hf
        cases hf
        simp
  · intro hh hw ht
    refine ⟨lib.LucamGetLastErrorForCamera cam.handle, ?_⟩
    have hneg : ¬ (cam.height < 0 ∨ cam.width < 0) := by omega
    simp only [take_fast_frame, camM_bind_eq, camM_pure_eq, camBind, camPure, getCam,
      emit, raise, hneg, if_false, ht, raiseLucamError_eq]

/-- A concrete frame used by the take_fast_frame witness: five rows of seven
zero bytes. -/
def frameW : ByteFrame :=
  ⟨5, 7, (List.range 35).map (fun _ => (0 : Fin 256))⟩

/-- Witness for C8: on the all-success library the returned buffer has the
cached five-by-seven shape with thirty-five bytes; on the all-failure library
the call raises a LucamError. -/
theorem take_fast_frame_buffer_witness :
    (frameW.height = camW.height ∧ frameW.width = camW.width ∧
      frameW.bytes.length = (camW.height * camW.width).toNat) ∧
    ∃ code, (take_fast_frame libAllFail camW).result = .error (.lucamError code) :=
  ⟨(take_fast_frame_buffer libAllOk camW).1 frameW (by decide),
   (take_fast_frame_buffer libAllFail camW).2 (by decide) (by decide) rfl⟩

/-- C2: get_default_snapshot derives the Snapshot by re-querying the format
for the format field, substituting the fixed constant 100 for the timeout
field, and querying every remaining field as a property where a Grn infix in
the field name is replaced by Green first: on success every gain and exposure
field equals the value of the property resolved through its translated
symbol (gainGrn1 through GAIN_GREEN1, gainGrn2 through GAIN_GREEN2), the only
symbols ever looked up are the six translated names (never GAIN_GRN1), and if
any underlying query fails the operation raises. -/
theorem default_snapshot_derivation (lib : LucamLib) (cam : LucamCamera) :
    (∀ snap, (get_default_snapshot lib cam).result = .ok snap →
      snap.timeout = 100 ∧
      (∃ lf fr, lib.LucamGetFormat cam.handle = some (lf, fr) ∧
        snap.format = Format.from_lucam lf) ∧
      (∃ pid, lib.getSymbol "LUCAM_PROP_EXPOSURE" = some pid ∧
        lib.LucamGetProperty cam.handle pid = some snap.exposure) ∧
      (∃ pid, lib.getSymbol "LUCAM_PROP_GAIN" = some pid ∧
        lib.LucamGetProperty cam.handle pid = some snap.gain) ∧
      (∃ pid, lib.getSymbol "LUCAM_PROP_GAIN_RED" = some pid ∧
        lib.LucamGetProperty cam.handle pid = some snap.gainRed) ∧
      (∃ pid, lib.getSymbol "LUCAM_PROP_GAIN_BLUE" = some pid ∧
        lib.LucamGetProperty cam.handle pid = some snap.gainBlue) ∧
      (∃ pid, lib.getSymbol "LUCAM_PROP_GAIN_GREEN1" = some pid ∧
        lib.LucamGetProperty cam.handle pid = some snap.gainGrn1) ∧
      (∃ pid, lib.getSymbol "LUCAM_PROP_GAIN_GREEN2" = some pid ∧
        lib.LucamGetProperty cam.handle pid = some snap.gainGrn2)) ∧
    (∀ name, NativeCall.getattrSym name ∈ (get_default_snapshot lib cam).trace →
      name ∈ sixPropSymbols) ∧
    NativeCall.getattrSym "LUCAM_PROP_GAIN_GRN1" ∉
      (get_default_snapshot lib cam).trace ∧
    (¬ defaultSnapshotAnswers lib cam →
      ∃ e, (get_default_snapshot lib cam).result = .error e) := by
  refine ⟨?_, ?_, ?_, get_default_snapshot_error lib cam⟩
  · intro snap hsnap
    by_cases hA : defaultSnapshotAnswers lib cam
    · obtain ⟨⟨⟨lf, fr⟩, hF⟩, hprops⟩ := hA
      obtain ⟨pidE, hE, vE, hvE⟩ :=
        hprops "LUCAM_PROP_EXPOSURE" (by simp [sixPropSymbols])
      obtain ⟨pidG, hG, vG, hvG⟩ := hprops "LUCAM_PROP_GAIN" (by simp [sixPropSymbols])
      obtain ⟨pidR, hR, vR, hvR⟩ :=
        hprops "LUCAM_PROP_GAIN_RED" (by simp [sixPropSymbols])
      obtain ⟨pidB, hB, vB, hvB⟩ :=
        hprops "LUCAM_PROP_GAIN_BLUE" (by simp [sixPropSymbols])
      obtain ⟨pid1, h1, v1, hv1⟩ :=
        hprops "LUCAM_PROP_GAIN_GREEN1" (by simp [sixPropSymbols])
      obtain ⟨pid2, h2, v2, hv2⟩ :=
        hprops "LUCAM_PROP_GAIN_GREEN2" (by simp [sixPropSymbols])
      rw [get_default_snapshot_ok lib cam hE hvE hG hvG hR hvR hB hvB h1 hv1 h2 hv2 hF]
        at hsnap
      injection hsnap with hsnap
      subst hsnap
      exact ⟨rfl, ⟨lf, fr, hF, rfl⟩, ⟨pidE, hE, hvE⟩, ⟨pidG, hG, hvG⟩,
        ⟨pidR, hR, hvR⟩, ⟨pidB, hB, hvB⟩, ⟨pid1, h1, hv1⟩, ⟨pid2, h2, hv2⟩⟩
    · obtain ⟨e, he⟩ := get_default_snapshot_error lib cam hA
      rw [he] at hsnap
      exact Except.noConfusion hsnap
  · intro name hmem
    rcases onTrace_get_default_snapshot lib cam _ hmem with
      ⟨n, hn, heq⟩ | ⟨hd, p, heq⟩ | ⟨hd, heq⟩ | ⟨hd, heq⟩
    · injection heq with h'
      rw [h']
      exact hn
    · exact NativeCall.noConfusion heq
    · exact NativeCall.noConfusion heq
    · exact NativeCall.noConfusion heq
  · intro hmem
    rcases onTrace_get_default_snapshot lib cam _ hmem with
      ⟨n, hn, heq⟩ | ⟨hd, p, heq⟩ | ⟨hd, heq⟩ | ⟨hd, heq⟩
    · injection heq with h'
      rw [← h'] at hn
      simp [sixPropSymbols] at hn
    · exact NativeCall.noConfusion heq
    · exact NativeCall.noConfusion heq
    · exact NativeCall.noConfusion heq

/-- The snapshot the all-success library derives, used by the C2 witness. -/
def snapW2 : Snapshot :=
  { exposure := 2, gain := 2, gainRed := 2, gainBlue := 2, gainGrn1 := 2,
    gainGrn2 := 2, timeout := 100, format := Format.from_lucam lffW }

/-- Witness for C2: on the all-success library the derived snapshot has
timeout 100, the re-queried format, and every gain and exposure field equal to
the value resolved through its translated symbol; on the all-failure library
the derivation raises. -/
theorem default_snapshot_derivation_witness :
    (snapW2.timeout = 100 ∧
      (∃ lf fr, libAllOk.LucamGetFormat camW.handle = some (lf, fr) ∧
        snapW2.format = Format.from_lucam lf) ∧
      (∃ pid, libAllOk.getSymbol "LUCAM_PROP_EXPOSURE" = some pid ∧
        libAllOk.LucamGetProperty camW.handle pid = some snapW2.exposure) ∧
      (∃ pid, libAllOk.getSymbol "LUCAM_PROP_GAIN" = some pid ∧
        libAllOk.LucamGetProperty camW.handle pid = some snapW2.gain) ∧
      (∃ pid, libAllOk.getSymbol "LUCAM_PROP_GAIN_RED" = some pid ∧
        libAllOk.LucamGetProperty camW.handle pid = some snapW2.gainRed) ∧
      (∃ pid, libAllOk.getSymbol "LUCAM_PROP_GAIN_BLUE" = some pid ∧
        libAllOk.LucamGetProperty camW.handle pid = some snapW2.gainBlue) ∧
      (∃ pid, libAllOk.getSymbol "LUCAM_PROP_GAIN_GREEN1" = some pid ∧
        libAllOk.LucamGetProperty camW.handle pid = some snapW2.gainGrn1) ∧
      (∃ pid, libAllOk.getSymbol "LUCAM_PROP_GAIN_GREEN2" = some pid ∧
        libAllOk.LucamGetProperty camW.handle pid = some snapW2.gainGrn2)) ∧
    ∃ e, (get_default_snapshot libAllFail camW).result = .error e :=
  ⟨(default_snapshot_derivation libAllOk camW).1 snapW2 (by decide),
   (default_snapshot_derivation libAllFail camW).2.2.2
     (fun h => Option.noConfusion h.1.choose_spec)⟩

/-! ## Supporting lemmas for the white-balance and constructor claims -/

theorem trace_camBind_cases {α β : Type} (x : CamM α) (f : α → CamM β)
    (cam : LucamCamera) (e : NativeCall) (he : e ∈ (camBind x f cam).trace) :
    e ∈ (x cam).trace ∨
      ∃ a, (x cam).result = .ok a ∧ e ∈ (f a (x cam).cam).trace := by
  simp only [camBind] at he
  rcases hr : (x cam).result with err | a <;> simp only [hr] at he
  · exact Or.inl he
  · rcases List.mem_append.mp he with h | h
    · exact Or.inl h
    · exact Or.inr ⟨a, rfl, h⟩

theorem onTrace_disable_fast_frames {P : NativeCall → Prop} (lib : LucamLib)
    (h1 : ∀ hd : Int, P (.disableFastFrames hd))
    (h2 : ∀ hd : Int, P (.getLastErrorForCamera hd)) :
    OnTrace (disable_fast_frames lib) P := by
  intro cam e he
  rw [disable_fast_frames_eq] at he
  cases hD : lib.LucamDisableFastFrames cam.handle <;>
    simp only [hD, Bool.false_eq_true, if_false, if_true, List.mem_cons,
      List.mem_singleton, List.not_mem_nil, or_false] at he
  · rcases he with rfl | rfl
    · exact h1 cam.handle
    · exact h2 cam.handle
  · rw [he]
    exact h1 cam.handle

theorem onTrace_enable_fast_frames {P : NativeCall → Prop} (lib : LucamLib)
    (snapshot? : Option Snapshot)
    (h1 : ∀ (hd : Int) (s : LUCAM_SNAPSHOT), P (.enableFastFrames hd s))
    (h2 : ∀ hd : Int, P (.getLastErrorForCamera hd)) :
    OnTrace (enable_fast_frames lib snapshot?) P := by
  intro cam e he
  rw [enable_fast_frames_eq] at he
  cases hE : lib.LucamEnableFastFrames cam.handle
      (match snapshot? with | none => cam.snapshot | some s => s).as_lucam <;>
    simp only [hE, Bool.false_eq_true, if_false, if_true, List.mem_cons,
      List.mem_singleton, List.not_mem_nil, or_false] at he
  · rcases he with rfl | rfl
    · exact h1 cam.handle _
    · exact h2 cam.handle
  · rw [he]
    exact h1 cam.handle _

/-- No one-shot auto-white-balance call. -/
def NoOneShot (e : NativeCall) : Prop :=
  ∀ hd a b w hh : Int, e ≠ .oneShotAutoWhiteBalance hd a b w hh

theorem noOneShot_disable (lib : LucamLib) :
    OnTrace (disable_fast_frames lib) NoOneShot :=
  onTrace_disable_fast_frames lib
    (fun _ _ _ _ _ _ h => NativeCall.noConfusion h)
    (fun _ _ _ _ _ _ h => NativeCall.noConfusion h)

theorem noOneShot_enable (lib : LucamLib) (snapshot? : Option Snapshot) :
    OnTrace (enable_fast_frames lib snapshot?) NoOneShot :=
  onTrace_enable_fast_frames lib snapshot?
    (fun _ _ _ _ _ _ _ h => NativeCall.noConfusion h)
    (fun _ _ _ _ _ _ h => NativeCall.noConfusion h)

theorem noOneShot_get_default_snapshot (lib : LucamLib) :
    OnTrace (get_default_snapshot lib) NoOneShot := by
  refine onTrace_mono (onTrace_get_default_snapshot lib) ?_
  rintro e (⟨n, hn, rfl⟩ | ⟨hd, p, rfl⟩ | ⟨hd, rfl⟩ | ⟨hd, rfl⟩) <;>
    exact fun _ _ _ _ _ h => NativeCall.noConfusion h

theorem noOneShot_raise {α : Type} (lib : LucamLib) :
    OnTrace (raiseLucamError (α := α) lib) NoOneShot :=
  onTrace_raiseLucamError lib (fun _ _ _ _ _ _ h => NativeCall.noConfusion h)

theorem noOneShot_check (lib : LucamLib) (ok : Bool) :
    OnTrace (check_or_raise lib ok) NoOneShot := by
  unfold check_or_raise
  split
  · exact onTrace_of_empty _ fun _ => rfl
  · exact noOneShot_raise lib

theorem white_balance_oneShot_args (lib : LucamLib) (start_x start_y : Int)
    (width? height? : Option Int) (cam : LucamCamera) :
    ∀ e ∈ (white_balance lib start_x start_y width? height? cam).trace,
      ∀ hd a b w hh : Int, e = NativeCall.oneShotAutoWhiteBalance hd a b w hh →
        hd = cam.handle ∧ a = start_x ∧ b = start_y ∧
        w = width?.getD cam.width ∧ hh = height?.getD cam.height := by
  intro e he hd a b w hh heq
  subst heq
  simp only [white_balance] at he
  rcases trace_camBind_cases _ _ _ _ he with he | ⟨a1, ha1, he⟩
  · exact absurd he (List.not_mem_nil _)
  simp only [getCam] at ha1 he
  injection ha1 with ha1
  subst ha1
  rcases trace_camBind_cases _ _ _ _ he with he | ⟨a2, ha2, he⟩
  · by_cases hff : cam.fast_frames_enabled = true
    · rw [if_pos hff] at he
      exact absurd rfl (noOneShot_disable lib cam _ he hd a b w hh)
    · rw [if_neg hff] at he
      exact absurd he (List.not_mem_nil _)
  rcases trace_camBind_cases _ _ _ _ he with he | ⟨a3, ha3, he⟩
  · simp only [emit, List.mem_singleton] at he
    exact NativeCall.noConfusion he
  rcases trace_camBind_cases _ _ _ _ he with he | ⟨a4, ha4, he⟩
  · exact absurd rfl (noOneShot_check lib _ _ _ he hd a b w hh)
  rcases trace_camBind_cases _ _ _ _ he with he | ⟨a5, ha5, he⟩
  · simp only [emit, List.mem_singleton] at he
    injection he with e1 e2 e3 e4 e5
    exact ⟨e1, e2, e3, e4, e5⟩
  rcases trace_camBind_cases _ _ _ _ he with he | ⟨a6, ha6, he⟩
  · exact absurd rfl (noOneShot_check lib _ _ _ he hd a b w hh)
  rcases trace_camBind_cases _ _ _ _ he with he | ⟨a7, ha7, he⟩
  · simp only [emit, List.mem_singleton] at he
    exact NativeCall.noConfusion he
  rcases trace_camBind_cases _ _ _ _ he with he | ⟨a8, ha8, he⟩
  · exact absurd rfl (noOneShot_check lib _ _ _ he hd a b w hh)
  rcases trace_camBind_cases _ _ _ _ he with he | ⟨a9, ha9, he⟩
  · exact absurd rfl (noOneShot_get_default_snapshot lib _ _ he hd a b w hh)
  exact absurd rfl (noOneShot_enable lib none _ _ he hd a b w hh)

theorem construct_format_fail (lib : LucamLib) (number : Int)
    (hF : lib.LucamGetFormat (lib.LucamCameraOpen number) = none) :
    (LucamCamera.construct lib number).result =
      .error (.lucamError
        (lib.LucamGetLastErrorForCamera (lib.LucamCameraOpen number))) := by
  simp only [LucamCamera.construct, LucamCamera.fresh, camM_bind_eq, camM_pure_eq,
    camBind, camPure, get_format_eq, hF]

/-! ## The remaining claims -/

/-- C6: white_balance called with all default arguments passes start
coordinates 0, 0 and the session's cached width and cached height as the
region of every native one-shot auto-white-balance call it makes, and if the
fast-frames flag is set at entry, the first native call is the disabling of
fast frames, before any stream control. -/
theorem white_balance_region_defaults (lib : LucamLib) (cam : LucamCamera) :
    (∀ hd a b w hh : Int, NativeCall.oneShotAutoWhiteBalance hd a b w hh ∈
        (white_balance lib 0 0 none none cam).trace →
      hd = cam.handle ∧ a = 0 ∧ b = 0 ∧ w = cam.width ∧ hh = cam.height) ∧
    (cam.fast_frames_enabled = true →
      (white_balance lib 0 0 none none cam).trace.head? =
        some (.disableFastFrames cam.handle)) := by
  constructor
  · intro hd a b w hh hmem
    exact white_balance_oneShot_args lib 0 0 none none cam _ hmem hd a b w hh rfl
  · intro hff
    cases hD : lib.LucamDisableFastFrames cam.handle <;>
      simp [white_balance, check_or_raise, camM_bind_eq, camM_pure_eq, camBind, camPure,
        getCam, emit, disable_fast_frames_eq, raiseLucamError_eq, hff, hD]

/-- Witness for C6: on the all-success library and the concrete session with
fast frames enabled, width 7 and height 5, the recorded one-shot call carries
the region 0, 0, 7, 5 and the first recorded call disables fast frames. -/
theorem white_balance_region_defaults_witness :
    ((3 : Int) = camW.handle ∧ (0 : Int) = 0 ∧ (0 : Int) = 0 ∧
      (7 : Int) = camW.width ∧ (5 : Int) = camW.height) ∧
    (white_balance libAllOk 0 0 none none camW).trace.head? =
      some (.disableFastFrames camW.handle) :=
  ⟨(white_balance_region_defaults libAllOk camW).1 3 0 0 7 5 (by decide),
   (white_balance_region_defaults libAllOk camW).2 (by decide)⟩

/-- C9: when every native call inside white_balance succeeds, the call
returns normally and the session ends with fast_frames_enabled true, whatever
the pre-call value of the flag: the final enable of fast frames is
unconditional. -/
theorem white_balance_enables_fast_frames (lib : LucamLib) (cam : LucamCamera)
    (start_x start_y : Int) (width? height? : Option Int)
    (hdf : ∀ h : Int, lib.LucamDisableFastFrames h = true)
    (hen : ∀ (h : Int) (s : LUCAM_SNAPSHOT), lib.LucamEnableFastFrames h s = true)
    (hsv : ∀ h c : Int, lib.LucamStreamVideoControl h c = true)
    (hws : ∀ h a b w hh : Int, lib.LucamOneShotAutoWhiteBalance h a b w hh = true)
    (hfmt : ∀ h : Int, ∃ x, lib.LucamGetFormat h = some x)
    (hsym : ∀ s : String, ∃ pid, lib.getSymbol s = some pid)
    (hprop : ∀ h p : Int, ∃ v, lib.LucamGetProperty h p = some v) :
    (white_balance lib start_x start_y width? height? cam).result = .ok () ∧
    (white_balance lib start_x start_y width? height? cam).cam.fast_frames_enabled =
      true := by
  obtain ⟨pidE, hE⟩ := hsym "LUCAM_PROP_EXPOSURE"
  obtain ⟨vE, hvE⟩ := hprop cam.handle pidE
  obtain ⟨pidG, hG⟩ := hsym "LUCAM_PROP_GAIN"
  obtain ⟨vG, hvG⟩ := hprop cam.handle pidG
  obtain ⟨pidR, hR⟩ := hsym "LUCAM_PROP_GAIN_RED"
  obtain ⟨vR, hvR⟩ := hprop cam.handle pidR
  obtain ⟨pidB, hB⟩ := hsym "LUCAM_PROP_GAIN_BLUE"
  obtain ⟨vB, hvB⟩ := hprop cam.handle pidB
  obtain ⟨pid1, h1⟩ := hsym "LUCAM_PROP_GAIN_GREEN1"
  obtain ⟨v1, hv1⟩ := hprop cam.handle pid1
  obtain ⟨pid2, h2⟩ := hsym "LUCAM_PROP_GAIN_GREEN2"
  obtain ⟨v2, hv2⟩ := hprop cam.handle pid2
  obtain ⟨⟨lf, fr⟩, hF⟩ := hfmt cam.handle
  by_cases hff : cam.fast_frames_enabled = true
  · have hsnap := get_default_snapshot_ok lib
      { cam with fast_frames_enabled := false }
      hE hvE hG hvG hR hvR hB hvB h1 hv1 h2 hv2 hF
    simp [white_balance, check_or_raise, camM_bind_eq, camM_pure_eq, camBind, camPure,
      getCam, emit, disable_fast_frames_eq, enable_fast_frames_eq, hff, hdf, hsv, hws,
      hen, hsnap]
  · have hsnap := get_default_snapshot_ok lib cam
      hE hvE hG hvG hR hvR hB hvB h1 hv1 h2 hv2 hF
    simp [white_balance, check_or_raise, camM_bind_eq, camM_pure_eq, camBind, camPure,
      getCam, emit, disable_fast_frames_eq, enable_fast_frames_eq, hff, hdf, hsv, hws,
      hen, hsnap]

/-- A session with fast frames disabled, used by the C9 witness. -/
def camWoff : LucamCamera := { camW with fast_frames_enabled := false }

/-- Witness for C9: on the all-success library, a session that had fast
frames disabled before the white balance has them enabled after it. -/
theorem white_balance_enables_fast_frames_witness :
    (white_balance libAllOk 0 0 none none camWoff).result = .ok () ∧
    (white_balance libAllOk 0 0 none none camWoff).cam.fast_frames_enabled = true :=
  white_balance_enables_fast_frames libAllOk camWoff 0 0 none none
    (fun _ => rfl) (fun _ _ => rfl) (fun _ _ => rfl) (fun _ _ _ _ _ => rfl)
    (fun _ => ⟨(lffW, 30), rfl⟩) (fun _ => ⟨7, rfl⟩) (fun _ _ => ⟨2, rfl⟩)

/-- C7: the constructor opens the camera by index and immediately queries the
current format and the default snapshot, so on success the caches are
populated from fresh queries; when the native library rejects the index (the
open handle answers no format query, which is what happens for an index
below 1 or an absent camera) the constructor raises. -/
theorem camera_open_behavior (lib : LucamLib) (number : Int) :
    ((LucamCamera.construct lib number).result = .ok () →
      ∃ lf fr, lib.LucamGetFormat (lib.LucamCameraOpen number) = some (lf, fr) ∧
        (LucamCamera.construct lib number).cam.format = Format.from_lucam lf ∧
        (LucamCamera.construct lib number).cam.snapshot.format = Format.from_lucam lf ∧
        (LucamCamera.construct lib number).cam.snapshot.timeout = 100) ∧
    (lib.LucamGetFormat (lib.LucamCameraOpen number) = none →
      ∃ e, (LucamCamera.construct lib number).result = .error e) ∧
    ((number < 1 → lib.LucamGetFormat (lib.LucamCameraOpen number) = none) →
      number < 1 → ∃ e, (LucamCamera.construct lib number).result = .error e) := by
  refine ⟨?_, ?_, ?_⟩
  · intro hok
    rcases hFq : lib.LucamGetFormat (lib.LucamCameraOpen number) with _ | ⟨lf, fr⟩
    · rw [construct_format_fail lib number hFq] at hok
      exact Except.noConfusion hok
    · by_cases hA : defaultSnapshotAnswers lib
        { LucamCamera.fresh (lib.LucamCameraOpen number) with
          format := Format.from_lucam lf, framerate := fr,
          width := (Format.from_lucam lf).width,
          height := (Format.from_lucam lf).height }
      · obtain ⟨_, hprops⟩ := hA
        obtain ⟨pidE, hE, vE, hvE⟩ :=
          hprops "LUCAM_PROP_EXPOSURE" (by simp [sixPropSymbols])
        obtain ⟨pidG, hG, vG, hvG⟩ :=
          hprops "LUCAM_PROP_GAIN" (by simp [sixPropSymbols])
        obtain ⟨pidR, hR, vR, hvR⟩ :=
          hprops "LUCAM_PROP_GAIN_RED" (by simp [sixPropSymbols])
        obtain ⟨pidB, hB, vB, hvB⟩ :=
          hprops "LUCAM_PROP_GAIN_BLUE" (by simp [sixPropSymbols])
        obtain ⟨pid1, h1, v1, hv1⟩ :=
          hprops "LUCAM_PROP_GAIN_GREEN1" (by simp [sixPropSymbols])
        obtain ⟨pid2, h2, v2, hv2⟩ :=
          hprops "LUCAM_PROP_GAIN_GREEN2" (by simp [sixPropSymbols])
        have hsnap := get_default_snapshot_ok lib
          { LucamCamera.fresh (lib.LucamCameraOpen number) with
            format := Format.from_lucam lf, framerate := fr,
            width := (Format.from_lucam lf).width,
            height := (Format.from_lucam lf).height }
          hE hvE hG hvG hR hvR hB hvB h1 hv1 h2 hv2 hFq
        simp only [LucamCamera.fresh] at hsnap
        refine ⟨lf, fr, rfl, ?_, ?_, ?_⟩ <;>
          simp [LucamCamera.construct, LucamCamera.fresh, camM_bind_eq,
            camM_pure_eq, camBind, camPure, get_format_eq, hFq, hsnap]
      · obtain ⟨e, he⟩ := get_default_snapshot_error lib _ hA
        simp only [LucamCamera.fresh] at he
        have hcon : (LucamCamera.construct lib number).result = .error e := by
          simp [LucamCamera.construct, LucamCamera.fresh, camM_bind_eq,
            camM_pure_eq, camBind, camPure, get_format_eq, hFq, he]
        rw [hcon] at hok
        exact Except.noConfusion hok
  · intro hF
    exact ⟨_, construct_format_fail lib number hF⟩
  · intro hnat hlt
    exact ⟨_, construct_format_fail lib number (hnat hlt)⟩

/-- Witness for C7: on the all-success library the constructor succeeds for
index 1 with the caches populated from the fresh queries; on the all-failure
library (whose opened handle answers no query, as for an invalid index) the
constructor at index 0 raises. -/
theorem camera_open_behavior_witness :
    (∃ lf fr, libAllOk.LucamGetFormat (libAllOk.LucamCameraOpen 1) = some (lf, fr) ∧
      (LucamCamera.construct libAllOk 1).cam.format = Format.from_lucam lf ∧
      (LucamCamera.construct libAllOk 1).cam.snapshot.format = Format.from_lucam lf ∧
      (LucamCamera.construct libAllOk 1).cam.snapshot.timeout = 100) ∧
    ∃ e, (LucamCamera.construct libAllFail 0).result = .error e :=
  ⟨(camera_open_behavior libAllOk 1).1 (by decide),
   (camera_open_behavior libAllFail 0).2.2 (fun _ => rfl) (by decide)⟩

end PyLucam
